import Mathlib

/-!
Verification of the simulation core of the `asteroids` repository
(`src/util.ts`, `src/state.ts`, `src/explosions.ts`, `src/shapes.ts`,
`src/main.ts`) against its natural-language specification.

The TypeScript code is shallowly embedded over `ℚ`.  JavaScript numbers
are modelled as exact rationals; `Math.random()` results are modelled as
an explicit sample stream, where a sample carries both the raw draw
`t ∈ [0,1)` and, for the call sites that immediately feed the draw into
`Math.cos`/`Math.sin`, the resulting unit vector `(ux, uy)` with
`ux^2 + uy^2 = 1` (angles themselves are only ever consumed through
`cos`/`sin` or stored cosmetically, so a facing direction is represented
by its unit vector throughout).
-/

/-- JavaScript truncation toward zero, as used by the `%` operator. -/
def rtrunc (q : ℚ) : ℤ := if 0 ≤ q then ⌊q⌋ else ⌈q⌉

/-- The JavaScript remainder operator `a % t` (sign follows the dividend). -/
def jsMod (a t : ℚ) : ℚ := a - t * rtrunc (a / t)

/-- `src/util.ts` `wrapWithMargin(value, max, margin)`:
`((((value + margin) % total) + total) % total) - margin` with
`total = max + margin * 2`. -/
def wrapWithMargin (value mx margin : ℚ) : ℚ :=
  jsMod (jsMod (value + margin) (mx + margin * 2) + (mx + margin * 2))
      (mx + margin * 2)
    - margin

/-- `src/util.ts` `wrapDelta(delta, span)`: the remainder
`(delta + span/2) % span` is made nonnegative and shifted back. -/
def wrapDelta (delta span : ℚ) : ℚ :=
  (if jsMod (delta + span / 2) span < 0 then jsMod (delta + span / 2) span + span
   else jsMod (delta + span / 2) span) - span / 2

/-- `src/util.ts` `lerp(start, end, t)`. -/
def lerp (start stop t : ℚ) : ℚ := start + (stop - start) * t

/-- `src/util.ts` `randomBetween(min, max)` applied to an abstract draw
`t ∈ [0,1)`. -/
def randomBetween (lo hi t : ℚ) : ℚ := min lo hi + t * (max lo hi - min lo hi)

/-- `src/util.ts` `randomIntInRange(min, max)` applied to an abstract draw. -/
def randomIntInRange (lo hi : ℤ) (t : ℚ) : ℤ :=
  ⌊t * ((max lo hi : ℚ) - (min lo hi : ℚ) + 1)⌋ + min lo hi

theorem jsMod_of_nonneg {a t : ℚ} (ht : 0 < t) (ha : 0 ≤ a) :
    jsMod a t = t * Int.fract (a / t) := by
  have hq : (0:ℚ) ≤ a / t := div_nonneg ha ht.le
  have : rtrunc (a / t) = ⌊a / t⌋ := if_pos hq
  rw [jsMod, this, Int.fract]
  have : a = t * (a / t) := by field_simp
  nlinarith [this]

theorem jsMod_of_neg_ne {a t : ℚ} (ht : 0 < t) (ha : a < 0)
    (hf : Int.fract (a / t) ≠ 0) :
    jsMod a t = t * (Int.fract (a / t) - 1) := by
  have hq : ¬ (0:ℚ) ≤ a / t := by
    intro h
    have := (div_nonneg_iff.mp h)
    rcases this with ⟨h1, _⟩ | ⟨_, h2⟩
    · nlinarith
    · nlinarith
  have htr : rtrunc (a / t) = ⌈a / t⌉ := if_neg hq
  have hceil := Int.ceil_eq_add_one_sub_fract hf
  rw [jsMod, htr]
  have : a = t * (a / t) := by field_simp
  nlinarith [this, hceil]

theorem jsMod_of_fract_zero {a t : ℚ} (ht : 0 < t)
    (hf : Int.fract (a / t) = 0) : jsMod a t = 0 := by
  have hfl : (⌊a / t⌋ : ℚ) = a / t := by
    have := Int.floor_add_fract (a / t)
    rw [hf, add_zero] at this
    exact this
  have hcl : (⌈a / t⌉ : ℚ) = a / t := by
    have : a / t = ((⌊a / t⌋ : ℤ) : ℚ) := hfl.symm
    rw [this, Int.ceil_intCast, hfl, this]
  have : a = t * (a / t) := by field_simp
  rw [jsMod, rtrunc]
  split
  · nlinarith [hfl]
  · nlinarith [hcl]

/-- The `((x % t) + t) % t` idiom computes the mathematical (floor) modulus. -/
theorem wrapCore_eq {a t : ℚ} (ht : 0 < t) :
    jsMod (jsMod a t + t) t = t * Int.fract (a / t) := by
  have hfr0 : 0 ≤ Int.fract (a / t) := Int.fract_nonneg _
  have hfr1 : Int.fract (a / t) < 1 := Int.fract_lt_one _
  rcases le_or_lt 0 a with ha | ha
  · -- the first remainder is already nonnegative
    rw [jsMod_of_nonneg ht ha]
    set f := Int.fract (a / t) with hf
    have harg : 0 ≤ t * f + t := by nlinarith
    rw [jsMod_of_nonneg ht harg]
    have hdiv : (t * f + t) / t = f + 1 := by field_simp; ring
    rw [hdiv]
    have : Int.fract (f + 1) = Int.fract f := by
      have h1 := Int.fract_add_int f 1
      simp only [Int.cast_one] at h1
      exact h1
    rw [this, Int.fract_eq_self.mpr ⟨hfr0, hfr1⟩]
  · rcases eq_or_ne (Int.fract (a / t)) 0 with hf | hf
    · rw [jsMod_of_fract_zero ht hf, hf]
      have harg : 0 ≤ (0:ℚ) + t := by linarith
      rw [jsMod_of_nonneg ht harg]
      have hdiv : ((0:ℚ) + t) / t = 1 := by field_simp
      rw [hdiv]
      simp [Int.fract_one]
    · rw [jsMod_of_neg_ne ht ha hf]
      set f := Int.fract (a / t) with hfdef
      have hfpos : 0 < f := lt_of_le_of_ne hfr0 (Ne.symm hf)
      have harg : 0 ≤ t * (f - 1) + t := by nlinarith
      rw [jsMod_of_nonneg ht harg]
      have hdiv : (t * (f - 1) + t) / t = f := by field_simp; ring
      rw [hdiv, Int.fract_eq_self.mpr ⟨hfr0, hfr1⟩]

theorem wrapWithMargin_eq (v mx margin : ℚ) (ht : 0 < mx + margin * 2) :
    wrapWithMargin v mx margin =
      (mx + margin * 2) * Int.fract ((v + margin) / (mx + margin * 2)) - margin := by
  unfold wrapWithMargin
  rw [wrapCore_eq ht]

/-- `wrapDelta` in closed form: the floor modulus of `delta + span/2`
shifted back by `span/2`. -/
theorem wrapDelta_eq (d s : ℚ) (hs : 0 < s) :
    wrapDelta d s = s * Int.fract ((d + s / 2) / s) - s / 2 := by
  unfold wrapDelta
  set a := d + s / 2 with hadef
  have hfr0 : 0 ≤ Int.fract (a / s) := Int.fract_nonneg _
  rcases le_or_lt 0 a with ha | ha
  · rw [jsMod_of_nonneg hs ha]
    have : ¬ (s * Int.fract (a / s) < 0) := by nlinarith
    rw [if_neg this]
  · rcases eq_or_ne (Int.fract (a / s)) 0 with hf | hf
    · rw [jsMod_of_fract_zero hs hf, hf]
      norm_num
    · rw [jsMod_of_neg_ne hs ha hf]
      have hfpos : 0 < Int.fract (a / s) := lt_of_le_of_ne hfr0 (Ne.symm hf)
      have hfr1 : Int.fract (a / s) < 1 := Int.fract_lt_one _
      have : s * (Int.fract (a / s) - 1) < 0 := by nlinarith
      rw [if_pos this]
      ring

theorem wrapDelta_lower (d s : ℚ) (hs : 0 < s) : -(s / 2) ≤ wrapDelta d s := by
  rw [wrapDelta_eq d s hs]
  have := Int.fract_nonneg ((d + s / 2) / s)
  nlinarith

theorem wrapDelta_upper (d s : ℚ) (hs : 0 < s) : wrapDelta d s < s / 2 := by
  rw [wrapDelta_eq d s hs]
  have := Int.fract_lt_one ((d + s / 2) / s)
  nlinarith

theorem wrapDelta_eq_self {d s : ℚ} (hs : 0 < s) (h1 : -(s / 2) ≤ d)
    (h2 : d < s / 2) : wrapDelta d s = d := by
  rw [wrapDelta_eq d s hs]
  have hdiv0 : 0 ≤ (d + s / 2) / s := by
    apply div_nonneg _ hs.le
    linarith
  have hdiv1 : (d + s / 2) / s < 1 := by
    rw [div_lt_one hs]
    linarith
  rw [Int.fract_eq_self.mpr ⟨hdiv0, hdiv1⟩]
  field_simp
  ring

theorem wrapDelta_add_int_mul (d s : ℚ) (hs : 0 < s) (k : ℤ) :
    wrapDelta (d + s * k) s = wrapDelta d s := by
  rw [wrapDelta_eq _ s hs, wrapDelta_eq d s hs]
  have : (d + s * k + s / 2) / s = (d + s / 2) / s + k := by
    field_simp
    ring
  rw [this, Int.fract_add_int]

theorem wrapWithMargin_mem (v mx margin : ℚ) (hmx : 0 < mx) (hm : 0 ≤ margin) :
    -margin ≤ wrapWithMargin v mx margin ∧
      wrapWithMargin v mx margin < mx + margin := by
  have ht : 0 < mx + margin * 2 := by linarith
  rw [wrapWithMargin_eq v mx margin ht]
  have h0 := Int.fract_nonneg ((v + margin) / (mx + margin * 2))
  have h1 := Int.fract_lt_one ((v + margin) / (mx + margin * 2))
  constructor
  · nlinarith
  · nlinarith

theorem wrapWithMargin_of_mem {v mx margin : ℚ} (ht : 0 < mx + margin * 2)
    (h0 : -margin ≤ v) (h1 : v < mx + margin) :
    wrapWithMargin v mx margin = v := by
  rw [wrapWithMargin_eq v mx margin ht]
  have hdiv0 : 0 ≤ (v + margin) / (mx + margin * 2) := by
    apply div_nonneg _ ht.le
    linarith
  have hdiv1 : (v + margin) / (mx + margin * 2) < 1 := by
    rw [div_lt_one ht]
    linarith
  rw [Int.fract_eq_self.mpr ⟨hdiv0, hdiv1⟩]
  field_simp

theorem wrapWithMargin_idem (v mx margin : ℚ) (hmx : 0 < mx) (hm : 0 ≤ margin) :
    wrapWithMargin (wrapWithMargin v mx margin) mx margin =
      wrapWithMargin v mx margin := by
  have ht : 0 < mx + margin * 2 := by linarith
  obtain ⟨h0, h1⟩ := wrapWithMargin_mem v mx margin hmx hm
  exact wrapWithMargin_of_mem ht h0 h1

/-- One `Math.random()` draw: the raw result `t ∈ [0,1)` together with the
unit vector `(ux, uy)` obtained when the call site feeds the draw through
`Math.cos`/`Math.sin` (an angle is only ever consumed that way). -/
structure Samp where
  t : ℚ
  ux : ℚ
  uy : ℚ
deriving DecidableEq

/-- A stream of `Math.random()` draws, one per call. -/
abbrev Rng := ℕ → Samp

/-- Well-formed draws: raw results in `[0,1)` and direction samples on the
unit circle. -/
def Rng.Good (ρ : Rng) : Prop :=
  ∀ k, 0 ≤ (ρ k).t ∧ (ρ k).t < 1 ∧ (ρ k).ux ^ 2 + (ρ k).uy ^ 2 = 1

/-- `src/state.ts` `GameMode` (the code stores `Menu`, `Playing`, `Versus`). -/
inductive GameMode where
  | menu
  | playing
  | versus
deriving DecidableEq

/-- Player color tag in Versus mode. -/
inductive Color where
  | blue
  | red
deriving DecidableEq

/-- `src/state.ts` `Size` constants. -/
def Size.Big : ℚ := 7

def Size.Med : ℚ := 4

def Size.Small : ℚ := 2

/-- The three `ShipSize` constants of `src/state.ts` are imported by
`src/main.ts` but their numeric values are not part of the sources at hand;
the Versus model is parameterized over them. -/
structure ShipSizes where
  large : ℚ
  med : ℚ
  small : ℚ
deriving DecidableEq

/-- Single-player bullet record. -/
structure Bullet where
  x : ℚ
  y : ℚ
  dx : ℚ
  dy : ℚ
  ttlMs : ℚ
deriving DecidableEq

/-- Asteroid record (`src/state.ts`); `timeUntilDead = none` models the
absent (`undefined`) field of a live asteroid. -/
structure Asteroid where
  x : ℚ
  y : ℚ
  dx : ℚ
  dy : ℚ
  angle : ℚ
  dangle : ℚ
  variant : ℤ
  size : ℚ
  timeUntilDead : Option ℚ := none
deriving DecidableEq

/-- Spark fade easing (`src/explosions.ts`). -/
inductive Easing where
  | linear
  | easeOutQuad
deriving DecidableEq

/-- Explosion spark (`src/explosions.ts`); `angle` stores the raw angle
draw (cosmetic), `dx`/`dy` the velocity derived from its unit vector. -/
structure Spark where
  x : ℚ
  y : ℚ
  dx : ℚ
  dy : ℚ
  angle : ℚ
  spin : ℚ
  length : ℚ
  lifeMs : ℚ
  maxLifeMs : ℚ
  easing : Easing
  color : Option Color
deriving DecidableEq

/-- The single-player ship (`src/state.ts` plus the fields `src/main.ts`
adds); the facing angle is represented by its unit vector
`(dirX, dirY) = (cos angle, sin angle)`. -/
structure Ship where
  x : ℚ
  y : ℚ
  dx : ℚ
  dy : ℚ
  dirX : ℚ
  dirY : ℚ
  size : ℚ
  isBoosting : Bool
  fireCooldownMs : ℚ
  invincibleMs : ℚ
  respawnMs : ℚ
  lives : ℤ
  score : ℚ
  bullets : List Bullet
deriving DecidableEq

/-- A Versus ship fragment. -/
structure MpShip where
  x : ℚ
  y : ℚ
  dx : ℚ
  dy : ℚ
  size : ℚ
  invincibleMs : ℚ
deriving DecidableEq

/-- A Versus bullet, tagged with its owner's color. -/
structure MpBullet where
  x : ℚ
  y : ℚ
  dx : ℚ
  dy : ℚ
  ttlMs : ℚ
  color : Color
deriving DecidableEq

/-- A Versus player; the shared facing angle is its unit vector. -/
structure Player where
  color : Color
  score : ℚ
  dirX : ℚ
  dirY : ℚ
  isBoosting : Bool
  fireCooldownMs : ℚ
  ships : List MpShip
  bullets : List MpBullet
deriving DecidableEq

/-- The root game state (`src/state.ts` `state`). -/
structure GState where
  mode : GameMode
  level : ℤ
  levelTransitionMs : ℚ
  screenShakeAmount : ℚ
  menuAnimationMs : ℚ
  ship : Ship
  asteroids : List Asteroid
  explosions : List Spark
  players : List Player
  baseAsteroidSizes : List ℚ
deriving DecidableEq

/-- One controller's per-tick view: left-stick magnitude, the unit vector
of the stick angle, and button state. -/
structure Pad where
  boostMag : ℚ
  dirX : ℚ
  dirY : ℚ
  shooting : Bool
  justPressedSouth : Bool
deriving DecidableEq

/-- The whole input provider for one tick. -/
structure Input where
  playerCount : ℕ
  anySouthJustPressed : Bool
  p1 : Pad
  p2 : Pad
deriving DecidableEq

def maxActiveBullets : ℕ := 10

def explosionDurationMsAsteroid : ℚ := 400

def explosionDurationMsShip : ℚ := 600

def explosionTtlMs : ℚ := 0

def childSpeedMin : ℚ := 0.005

def childSpeedMax : ℚ := 0.015

def spawnJitter : ℚ := 0.125

def childDangleMax : ℚ := 0.0025

def bulletRadiusWorld : ℚ := 0.25

/-- `src/explosions.ts` `tickExplosions`. -/
def tickExplosions (explosions : List Spark) (dt w h : ℚ) : List Spark :=
  explosions.filterMap fun e =>
    if e.lifeMs - dt ≤ 0 then none
    else
      some { e with
        x := wrapWithMargin (e.x + e.dx * dt) w 0
        y := wrapWithMargin (e.y + e.dy * dt) h 0
        angle := e.angle + e.spin * dt
        lifeMs := e.lifeMs - dt }

/-- `src/explosions.ts` `makeSpark`, consuming five draws starting at `k`. -/
def makeSpark (x y durationMs : ℚ) (color : Option Color) (ρ : Rng) (k : ℕ) :
    Spark :=
  let a := ρ k
  let speed := randomBetween 0.01 0.04 (ρ (k + 1)).t
  let len := randomBetween 0.4 1.6 (ρ (k + 2)).t
  let spin := randomBetween (-0.004) 0.004 (ρ (k + 3)).t
  let maxLifeMs := durationMs * randomBetween 0.9 1.1 (ρ (k + 4)).t
  { x := x, y := y, dx := a.ux * speed, dy := a.uy * speed, angle := a.t,
    spin := spin, length := len, lifeMs := maxLifeMs, maxLifeMs := maxLifeMs,
    easing := Easing.easeOutQuad, color := color }

/-- `src/explosions.ts` `pickCountFromMagnitude`. -/
def pickCountFromMagnitude (magnitude : ℚ) : ℕ :=
  (max 8 (min 64 ⌊magnitude * 6⌋)).toNat

/-- `src/explosions.ts` `spawnSparkBurst` (with the defaulted options used
by `src/main.ts`); returns the burst plus the next draw index. -/
def spawnSparkBurst (x y magnitude durationMs : ℚ) (color : Option Color)
    (ρ : Rng) (k : ℕ) : List Spark × ℕ :=
  let count := pickCountFromMagnitude magnitude
  ((List.range count).map fun i => makeSpark x y durationMs color ρ (k + 5 * i),
    k + 5 * count)

/-- `src/shapes.ts` `makeShipGeometry` hull vertices (world units). -/
def makeShipGeometryVerts (size : ℚ) : List (ℚ × ℚ) :=
  let noseX := size
  let tailX := -size * 0.6
  let halfY := size * 0.5
  let footLen := size * 0.25
  let footRise := halfY * 0.4
  let innerX := tailX + footLen
  [(noseX, 0), (tailX, halfY), (innerX, footRise), (innerX, -footRise),
    (tailX, -halfY)]

/-- `src/main.ts` `transformPoints`, rotation given by the unit vector
`(c, s) = (cos angle, sin angle)`. -/
def transformPoints (points : List (ℚ × ℚ)) (c s tx ty : ℚ) :
    List (ℚ × ℚ) :=
  points.map fun p => (tx + (p.1 * c - p.2 * s), ty + (p.1 * s + p.2 * c))

/-- Edges `(poly[i], poly[i-1])` for the even-odd ray cast of
`src/main.ts` `pointInPolygon`. -/
def polyEdges (l : List (ℚ × ℚ)) : List ((ℚ × ℚ) × (ℚ × ℚ)) :=
  match l.getLast? with
  | none => []
  | some lst => l.zip (lst :: l.dropLast)

/-- `src/main.ts` `pointInPolygon` (even-odd rule ray cast). -/
def pointInPolygon (p : ℚ × ℚ) (poly : List (ℚ × ℚ)) : Bool :=
  (polyEdges poly).foldl
    (fun inside e =>
      let xi := e.1.1
      let yi := e.1.2
      let xj := e.2.1
      let yj := e.2.2
      if (yi > p.2 ↔ yj > p.2) then inside
      else if p.1 < (xj - xi) * (p.2 - yi) / (yj - yi) + xi then !inside
      else inside)
    false

/-- `src/main.ts` `splitAsteroid` child construction; one child consumes
seven draws starting at `k` (direction, speed, two jitters, angle, spin,
variant). -/
def splitChild (ρ : Rng) (k : ℕ) (w h childSize : ℚ) (a : Asteroid) :
    Asteroid :=
  let dir := ρ k
  let speed := childSpeedMin + (ρ (k + 1)).t * (childSpeedMax - childSpeedMin)
  let jitterX := ((ρ (k + 2)).t * 2 - 1) * spawnJitter
  let jitterY := ((ρ (k + 3)).t * 2 - 1) * spawnJitter
  { x := wrapWithMargin (a.x + jitterX) w childSize
    y := wrapWithMargin (a.y + jitterY) h childSize
    dx := dir.ux * speed
    dy := dir.uy * speed
    angle := (ρ (k + 4)).t
    dangle := ((ρ (k + 5)).t * 2 - 1) * childDangleMax
    variant := randomIntInRange 0 2 (ρ (k + 6)).t
    size := childSize
    timeUntilDead := none }

/-- `src/main.ts` `splitAsteroid` (also `splitAsteroidLocal` in
`updateVersus`, which has identical constants): Big and Med parents yield
two children of the next smaller size, anything else yields none.
Consumes fourteen draws on a split. -/
def childSizeOf (s : ℚ) : ℚ :=
  if s = Size.Big then Size.Med else if s = Size.Med then Size.Small else 0

def splitAsteroid (ρ : Rng) (k : ℕ) (w h : ℚ) (a : Asteroid) :
    List Asteroid :=
  if childSizeOf a.size = 0 then []
  else
    [splitChild ρ k w h (childSizeOf a.size) a,
      splitChild ρ (k + 7) w h (childSizeOf a.size) a]

/-- `src/main.ts` `bulletHitsAsteroidRadius`. -/
def bulletHitsAsteroidRadius (w h px py : ℚ) (a : Asteroid) : Bool :=
  let dx := wrapDelta (px - a.x) w
  let dy := wrapDelta (py - a.y) h
  let radiusSum := a.size + bulletRadiusWorld
  decide (dx * dx + dy * dy ≤ radiusSum * radiusSum)

/-- `src/main.ts` `pointHitsAsteroidRadius`. -/
def pointHitsAsteroidRadius (w h px py : ℚ) (a : Asteroid) : Bool :=
  let dx := wrapDelta (px - a.x) w
  let dy := wrapDelta (py - a.y) h
  decide (dx * dx + dy * dy ≤ a.size * a.size)

/-- First live asteroid (by index) hit by a bullet, mirroring the inner
loop of the single-player bullet–asteroid pass. -/
def findHit (w h px py : ℚ) : List Asteroid → ℕ → Option (ℕ × Asteroid)
  | [], _ => none
  | a :: rest, i =>
    if a.timeUntilDead = none ∧ bulletHitsAsteroidRadius w h px py a then
      some (i, a)
    else findHit w h px py rest (i + 1)

/-- Mutable state of the single-player bullet–asteroid pass
(`src/main.ts` lines 869–910). -/
structure HitPass where
  asteroids : List Asteroid
  keptBullets : List Bullet
  toRemove : List ℕ
  children : List Asteroid
  score : ℚ
  shake : ℚ
  explosions : List Spark
  k : ℕ

/-- One bullet of the single-player bullet–asteroid pass: the bullet
destroys at most the first live asteroid it overlaps; Big/Med parents are
marked for removal and split, Small ones start decaying in place. -/
def spProcessBullet (w h : ℚ) (ρ : Rng) (st : HitPass) (b : Bullet) :
    HitPass :=
  match findHit w h b.x b.y st.asteroids 0 with
  | none => { st with keptBullets := st.keptBullets ++ [b] }
  | some (i, a) =>
    let score := st.score + a.size * 10
    let burst :=
      spawnSparkBurst a.x a.y a.size explosionDurationMsAsteroid none ρ st.k
    let explosions := st.explosions ++ burst.1
    let shake := 1 / (20 - a.size * 2)
    if a.size = Size.Big ∨ a.size = Size.Med then
      { st with
        score := score
        explosions := explosions
        shake := shake
        k := burst.2 + 14
        toRemove := st.toRemove ++ [i]
        children := st.children ++ splitAsteroid ρ burst.2 w h a }
    else
      { st with
        score := score
        explosions := explosions
        shake := shake
        k := burst.2
        asteroids :=
          st.asteroids.set i { a with timeUntilDead := some explosionTtlMs } }

/-- Asteroid rebuild after the bullet pass: drop split parents, append
children, cull asteroids whose decay timer has elapsed. -/
def rebuildAsteroids (asts : List Asteroid) (toRemove : List ℕ)
    (children : List Asteroid) : List Asteroid :=
  (((asts.enum.filter fun p =>
      p.2.timeUntilDead ≠ none ∨ ¬ p.1 ∈ toRemove).map Prod.snd)
    ++ children).filter fun a =>
      match a.timeUntilDead with
      | none => true
      | some t => decide (t > 0)

/-- Single-player ship integration and boost input
(`src/main.ts` lines 759–777): while respawning the ship is frozen;
otherwise the position advances by the velocity vector (no `dt` factor)
and boost adds thrust scaled by stick magnitude and `dt`. -/
def spMoveShip (pad : Pad) (dt w h : ℚ) (sh : Ship) : Ship :=
  if sh.respawnMs ≤ 0 then
    let x1 := wrapWithMargin (sh.x + sh.dx) w (sh.size / 2)
    let y1 := wrapWithMargin (sh.y + sh.dy) h (sh.size / 2)
    if pad.boostMag > 0.75 then
      { sh with
        x := x1
        y := y1
        isBoosting := true
        dirX := pad.dirX
        dirY := pad.dirY
        dx := sh.dx + pad.dirX * pad.boostMag * 0.0003 * dt
        dy := sh.dy + pad.dirY * pad.boostMag * 0.0003 * dt }
    else
      { sh with
        x := x1
        y := y1
        isBoosting := false }
  else { sh with isBoosting := false }

/-- Single-player firing (`src/main.ts` lines 779–800): decrement the
cooldown; when ready and the trigger is held, push a bullet at the nose
whose velocity is the muzzle speed along the facing plus the ship
velocity divided by `dt`, and force-expire the oldest bullet beyond the
cap. -/
def spFire (pad : Pad) (dt w h : ℚ) (sh : Ship) : Ship :=
  let cd := max 0 (sh.fireCooldownMs - dt)
  if sh.respawnMs ≤ 0 ∧ cd ≤ 0 ∧ pad.shooting then
    let bulletSpeed := min w h / 1000
    let nb : Bullet :=
      { x := sh.x + sh.dirX * sh.size
        y := sh.y + sh.dirY * sh.size
        dx := sh.dirX * bulletSpeed + sh.dx / dt
        dy := sh.dirY * bulletSpeed + sh.dy / dt
        ttlMs := 750 }
    let bullets := sh.bullets ++ [nb]
    let bullets :=
      if bullets.length > maxActiveBullets then
        match bullets with
        | [] => []
        | b0 :: rest => { b0 with ttlMs := 0 } :: rest
      else bullets
    { sh with
      fireCooldownMs := 278 / 2
      bullets := bullets }
  else { sh with fireCooldownMs := cd }

/-- Bullet integration and expiry (`src/main.ts` lines 802–809). -/
def spMoveBullets (dt w h : ℚ) (bullets : List Bullet) : List Bullet :=
  (bullets.map fun b =>
    { b with
      x := wrapWithMargin (b.x + b.dx * dt) w 0
      y := wrapWithMargin (b.y + b.dy * dt) h 0
      ttlMs := b.ttlMs - dt }).filter fun b => decide (b.ttlMs > 0)

/-- Asteroid integration (`src/main.ts` lines 811–817, also used by the
menu and Versus loops). -/
def moveAsteroid (dt w h : ℚ) (a : Asteroid) : Asteroid :=
  { a with
    x := wrapWithMargin (a.x + a.dx * dt) w a.size
    y := wrapWithMargin (a.y + a.dy * dt) h a.size
    angle := a.angle + a.dangle * dt }

/-- Decay timers of already-destroyed asteroids (`src/main.ts` 862–867). -/
def spDecay (dt : ℚ) (asts : List Asteroid) : List Asteroid :=
  asts.map fun a =>
    match a.timeUntilDead with
    | none => a
    | some t => { a with timeUntilDead := some (t - dt) }

/-- The respawn-safety test of `src/main.ts` lines 944–951: the world
center is clear of every live asteroid by its size plus one and a half
ship sizes (wrapped distances). -/
def isSafeCenter (w h shipSize : ℚ) (asts : List Asteroid) : Bool :=
  asts.all fun a =>
    if a.timeUntilDead ≠ none then true
    else
      let dx := wrapDelta (w / 2 - a.x) w
      let dy := wrapDelta (h / 2 - a.y) h
      let r := a.size + shipSize * 1.5
      decide (dx * dx + dy * dy > r * r)

/-- Level clear check (`src/main.ts` lines 926–929). -/
def spLevelClear (st : GState) : GState :=
  if st.asteroids.length = 0 ∧ st.levelTransitionMs ≤ 0 then
    { st with levelTransitionMs := 2000 }
  else st

/-- `src/main.ts` `easeCameraToZero`; `ex` stands for the per-tick value
of `Math.exp (-0.01 * dt)` (transcendental, hence a parameter). -/
def easeCameraToZero (ex shake : ℚ) : ℚ :=
  let v := lerp shake 0 (1 - ex)
  if v < 0.001 then 0 else v

/-- Invincibility countdown (`src/main.ts` lines 933–936). -/
def tickInvincible (dt : ℚ) (sh : Ship) : Ship :=
  if sh.invincibleMs > 0 then
    { sh with invincibleMs := max 0 (sh.invincibleMs - dt) }
  else sh

/-- Respawn countdown with safe-center relocation
(`src/main.ts` lines 939–961), acting on the already
invincibility-ticked ship. -/
def spRespawn (dt w h : ℚ) (st : GState) (sh : Ship) : GState :=
  let r := max 0 (sh.respawnMs - dt)
  if r = 0 then
    if isSafeCenter w h sh.size st.asteroids then
      { st with ship :=
          { sh with
            respawnMs := 0
            x := w / 2
            y := h / 2
            invincibleMs := 2000 } }
    else { st with ship := { sh with respawnMs := 50 } }
  else { st with ship := { sh with respawnMs := r } }

/-- Whether the (already ticked) ship's center or nose overlaps some live
asteroid (`src/main.ts` lines 964–973). -/
def spShipHitsSome (w h : ℚ) (sh : Ship) (asts : List Asteroid) : Bool :=
  asts.any fun a =>
    a.timeUntilDead = none ∧
      (pointHitsAsteroidRadius w h sh.x sh.y a ∨
        pointHitsAsteroidRadius w h (sh.x + sh.dirX * sh.size)
          (sh.y + sh.dirY * sh.size) a)

/-- Ship–asteroid collision resolution (`src/main.ts` lines 962–1001). -/
def spCollide (dt w h : ℚ) (ρ : Rng) (k : ℕ) (st : GState) (sh : Ship) :
    GState × ℕ :=
  if spShipHitsSome w h sh st.asteroids then
    let burst :=
      spawnSparkBurst sh.x sh.y (sh.size * 2.5) explosionDurationMsShip
        none ρ k
    let lives := max 0 (sh.lives - 1)
    let sh1 :=
      { sh with
        respawnMs := 2000
        invincibleMs := 0
        dx := 0
        dy := 0
        lives := lives
        bullets := ([] : List Bullet) }
    if lives = 0 then
      ({ st with
          ship := { sh1 with respawnMs := 0, invincibleMs := 0 }
          explosions := st.explosions ++ burst.1
          screenShakeAmount := 1
          mode := GameMode.menu
          menuAnimationMs := 0 }, burst.2)
    else
      ({ st with
          ship := sh1
          explosions := st.explosions ++ burst.1
          screenShakeAmount := 1 }, burst.2)
  else ({ st with ship := sh }, k)

/-- Invincibility tick, respawn countdown with safe-center relocation,
and ship–asteroid collision (`src/main.ts` lines 931–1002), returning the
new state and next draw index. -/
def spShipPhase (dt w h : ℚ) (ρ : Rng) (k : ℕ) (st : GState) :
    GState × ℕ :=
  let sh := tickInvincible dt st.ship
  if sh.respawnMs > 0 then (spRespawn dt w h st sh, k)
  else if sh.invincibleMs ≤ 0 then spCollide dt w h ρ k st sh
  else ({ st with ship := sh }, k)

/-- `src/main.ts` `randomAsteroidOutsideCenter` rejection loop (up to 50
tries, then a fallback on the exclusion-circle edge); the cosmetic angle
field stores the raw draw. -/
def randomAsteroidLoop (ρ : Rng) (size w h excl : ℚ) :
    ℕ → ℕ → Asteroid × ℕ
  | 0, k =>
    let dir := ρ k
    let rx := w / 2 + dir.ux * (excl + size * 2)
    let ry := h / 2 + dir.uy * (excl + size * 2)
    ({ x := wrapWithMargin rx w size
       y := wrapWithMargin ry h size
       dx := randomBetween (-0.01) 0.01 (ρ (k + 1)).t
       dy := randomBetween (-0.01) 0.01 (ρ (k + 2)).t
       angle := 0
       dangle := randomBetween (-0.0015) 0.0015 (ρ (k + 3)).t
       variant := randomIntInRange 0 2 (ρ (k + 4)).t
       size := size
       timeUntilDead := none }, k + 5)
  | tries + 1, k =>
    let x := (ρ k).t * w
    let y := (ρ (k + 1)).t * h
    if (x - w / 2) * (x - w / 2) + (y - h / 2) * (y - h / 2) ≤
        (excl + size) * (excl + size) then
      randomAsteroidLoop ρ size w h excl tries (k + 2)
    else
      ({ x := x
         y := y
         dx := randomBetween (-0.01) 0.01 (ρ (k + 2)).t
         dy := randomBetween (-0.01) 0.01 (ρ (k + 3)).t
         angle := (ρ (k + 4)).t
         dangle := randomBetween (-0.0025) 0.0025 (ρ (k + 5)).t
         variant := randomIntInRange 0 2 (ρ (k + 6)).t
         size := size
         timeUntilDead := none }, k + 7)

/-- `src/main.ts` `randomAsteroidOutsideCenter`. -/
def randomAsteroidOutsideCenter (ρ : Rng) (k : ℕ) (size w h excl : ℚ) :
    Asteroid × ℕ :=
  randomAsteroidLoop ρ size w h excl 50 k

/-- `src/main.ts` `seedLevel`. -/
def seedLevel (ρ : Rng) (k : ℕ) (level : ℤ) (w h : ℚ) (st : GState) :
    GState × ℕ :=
  let baseSizes :=
    if st.baseAsteroidSizes.length > 0 then st.baseAsteroidSizes
    else st.asteroids.map (fun a => a.size)
  let excl := st.ship.size * 8
  let base := baseSizes.foldl
    (fun (acc : List Asteroid × ℕ) sz =>
      let r := randomAsteroidOutsideCenter ρ acc.2 sz w h excl
      (acc.1 ++ [r.1], r.2))
    ([], k)
  let extraCount := (max 0 ((level - 1) * 2)).toNat
  let extras := (List.range extraCount).foldl
    (fun (acc : List Asteroid × ℕ) _ =>
      let r := randomAsteroidOutsideCenter ρ acc.2 Size.Big w h excl
      (acc.1 ++ [r.1], r.2))
    ([], base.2)
  ({ st with asteroids := base.1 ++ extras.1 }, extras.2)

/-- `src/main.ts` `nextLevel`. -/
def nextLevel (ρ : Rng) (k : ℕ) (w h : ℚ) (st : GState) : GState × ℕ :=
  let st1 := { st with level := st.level + 1 }
  let seeded := seedLevel ρ k st1.level w h st1
  ({ seeded.1 with
      ship :=
        { seeded.1.ship with
          x := w / 2
          y := h / 2
          dx := 0
          dy := 0
          invincibleMs := 2000
          respawnMs := 0 } }, seeded.2)

/-- `src/main.ts` `startNewGame`; the fixed heading `-π/2` is the unit
vector `(0, -1)`. -/
def startNewGame (ρ : Rng) (k : ℕ) (w h : ℚ) (st : GState) : GState × ℕ :=
  let st1 :=
    { st with
      mode := GameMode.playing
      level := 1
      players := []
      explosions := []
      screenShakeAmount := 0
      menuAnimationMs := 0
      ship :=
        { st.ship with
          score := 0
          lives := 5
          x := w / 2
          y := h / 2
          dx := 0
          dy := 0
          dirX := 0
          dirY := -1
          isBoosting := false
          fireCooldownMs := 200
          invincibleMs := 2000
          respawnMs := 0
          bullets := [] } }
  seedLevel ρ k 1 w h st1

/-- `src/main.ts` `startVersus`: two players at 25% and 75% of the world
width, each with one large ship and a 2000 ms grace window. -/
def startVersus (sz : ShipSizes) (ρ : Rng) (k : ℕ) (w h : ℚ) (st : GState) :
    GState × ℕ :=
  let st1 :=
    { st with
      mode := GameMode.versus
      level := 1
      levelTransitionMs := 0
      screenShakeAmount := 0
      menuAnimationMs := 0
      explosions := [] }
  let seeded := seedLevel ρ k 1 w h st1
  ({ seeded.1 with
      players :=
        [{ color := Color.blue
           score := 0
           dirX := 0
           dirY := -1
           isBoosting := false
           fireCooldownMs := 0
           ships :=
             [{ x := w * 0.25
                y := h * 0.5
                dx := 0
                dy := 0
                size := sz.large
                invincibleMs := 2000 }]
           bullets := [] },
         { color := Color.red
           score := 0
           dirX := 0
           dirY := -1
           isBoosting := false
           fireCooldownMs := 0
           ships :=
             [{ x := w * 0.75
                y := h * 0.5
                dx := 0
                dy := 0
                size := sz.large
                invincibleMs := 2000 }]
           bullets := [] }] }, seeded.2)

/-- Movement, firing, bullet/asteroid integration, decay and the
bullet–asteroid pass of a single-player tick (`src/main.ts` lines
759–923 up to the asteroid rebuild), returning the next draw index. -/
def spPassStage (ρ : Rng) (pad : Pad) (dt w h : ℚ) (st : GState) :
    GState × ℕ :=
  let sh := spFire pad dt w h (spMoveShip pad dt w h st.ship)
  let sh1 := { sh with bullets := spMoveBullets dt w h sh.bullets }
  let pass := sh1.bullets.foldl (spProcessBullet w h ρ)
    { asteroids := spDecay dt (st.asteroids.map (moveAsteroid dt w h))
      keptBullets := []
      toRemove := []
      children := []
      score := sh1.score
      shake := st.screenShakeAmount
      explosions := st.explosions
      k := 0 }
  ({ st with
      ship := { sh1 with bullets := pass.keptBullets, score := pass.score }
      asteroids := rebuildAsteroids pass.asteroids pass.toRemove pass.children
      explosions := pass.explosions
      screenShakeAmount := pass.shake }, pass.k)

/-- Trailing particle decay and camera ease of a single-player tick
(`src/main.ts` lines 1004–1005). -/
def spFinishStage (ex dt w h : ℚ) (st : GState) : GState :=
  { st with
    explosions := tickExplosions st.explosions dt w h
    screenShakeAmount := easeCameraToZero ex st.screenShakeAmount }

/-- One single-player gameplay tick past the level-transition gate
(`src/main.ts` lines 759–1006). -/
def spPlayingTick (ρ : Rng) (pad : Pad) (ex dt w h : ℚ) (st : GState) :
    GState :=
  spFinishStage ex dt w h
    (spShipPhase dt w h ρ (spPassStage ρ pad dt w h st).2
      (spLevelClear (spPassStage ρ pad dt w h st).1)).1

/-- Versus asteroid score table (`updateVersus` `scoreForAsteroid`). -/
def scoreForAsteroid (s : ℚ) : ℚ :=
  if s = Size.Big then 20 else if s = Size.Med then 50 else 100

/-- Versus ship-fragment score table (`updateVersus` `scoreForShip`). -/
def scoreForShip (sz : ShipSizes) (s : ℚ) : ℚ :=
  if s = sz.large then 40 else if s = sz.med then 100 else 200

/-- Versus per-player boost flag and facing (`src/main.ts` 133–137). -/
def vsPlayerBoost (pad : Pad) (p : Player) : Player :=
  if pad.boostMag > 0.75 then
    { p with
      isBoosting := true
      dirX := pad.dirX
      dirY := pad.dirY }
  else { p with isBoosting := false }

/-- Versus per-player firing (`src/main.ts` 139–158): every surviving
fragment fires one bullet from its nose, inheriting the fragment
velocity divided by `dt` plus the muzzle speed along the shared
facing. -/
def vsPlayerFire (pad : Pad) (dt w h : ℚ) (p : Player) : Player :=
  let cd := max 0 (p.fireCooldownMs - dt)
  if p.ships.length > 0 ∧ cd ≤ 0 ∧ pad.shooting then
    { p with
      bullets := p.bullets ++ p.ships.map fun s =>
        { x := s.x + p.dirX * s.size
          y := s.y + p.dirY * s.size
          dx := p.dirX * (min w h / 1000) + s.dx / dt
          dy := p.dirY * (min w h / 1000) + s.dy / dt
          ttlMs := 750
          color := p.color }
      fireCooldownMs := 278 / 2 }
  else { p with fireCooldownMs := cd }

/-- Versus per-player thrust (`src/main.ts` 160–169). -/
def vsPlayerAccel (pad : Pad) (dt : ℚ) (p : Player) : Player :=
  if p.isBoosting then
    { p with
      ships := p.ships.map fun s =>
        { s with
          dx := s.dx + p.dirX * (0.00025 * pad.boostMag * dt)
          dy := s.dy + p.dirY * (0.00025 * pad.boostMag * dt) } }
  else p

/-- Versus fragment integration, wrap and grace countdown
(`src/main.ts` 171–176). -/
def vsPlayerIntegrate (dt w h : ℚ) (p : Player) : Player :=
  { p with
    ships := p.ships.map fun (s : MpShip) =>
      let s1 : MpShip :=
        { s with
          x := wrapWithMargin (s.x + s.dx) w (s.size / 2)
          y := wrapWithMargin (s.y + s.dy) h (s.size / 2) }
      if s1.invincibleMs > 0 then
        { s1 with invincibleMs := max 0 (s1.invincibleMs - dt) }
      else s1 }

/-- Versus per-player bullet aging (`src/main.ts` 178–186). -/
def vsPlayerBulletsStep (dt w h : ℚ) (p : Player) : Player :=
  { p with
    bullets := (p.bullets.map fun (b : MpBullet) =>
      { b with
        x := wrapWithMargin (b.x + b.dx * dt) w 0
        y := wrapWithMargin (b.y + b.dy * dt) h 0
        ttlMs := b.ttlMs - dt }).filter fun b => decide (b.ttlMs > 0) }

/-- Per-player input, firing, thrust, integration and bullet aging of
`updateVersus` (`src/main.ts` lines 130–187). -/
def vsPlayerInputPhase (pad : Pad) (dt w h : ℚ) (p : Player) : Player :=
  vsPlayerBulletsStep dt w h
    (vsPlayerIntegrate dt w h
      (vsPlayerAccel pad dt (vsPlayerFire pad dt w h (vsPlayerBoost pad p))))

/-- Shared accumulator of the Versus bullet–asteroid pass
(`src/main.ts` lines 228–266). -/
structure VsPass where
  asteroids : List Asteroid
  toRemove : List ℕ
  children : List Asteroid
  shake : ℚ
  explosions : List Spark
  k : ℕ

/-- One player's bullets against the shared asteroid field, with the same
splitting rule as single-player but per-size point scores. -/
def vsProcessPlayerBullets (w h : ℚ) (ρ : Rng) (pass : VsPass) (p : Player) :
    VsPass × Player :=
  let r := p.bullets.foldl
    (fun (st : VsPass × List MpBullet × ℚ) b =>
      match findHit w h b.x b.y st.1.asteroids 0 with
      | none => (st.1, st.2.1 ++ [b], st.2.2)
      | some (i, a) =>
        let score := st.2.2 + scoreForAsteroid a.size
        let burst :=
          spawnSparkBurst a.x a.y a.size explosionDurationMsAsteroid none ρ
            st.1.k
        let explosions := st.1.explosions ++ burst.1
        let shake := 1 / (20 - a.size * 2)
        if a.size = Size.Big ∨ a.size = Size.Med then
          ({ st.1 with
              toRemove := st.1.toRemove ++ [i]
              children := st.1.children ++ splitAsteroid ρ burst.2 w h a
              explosions := explosions
              shake := shake
              k := burst.2 + 14 }, st.2.1, score)
        else
          ({ st.1 with
              asteroids :=
                st.1.asteroids.set i { a with timeUntilDead := some explosionTtlMs }
              explosions := explosions
              shake := shake
              k := burst.2 }, st.2.1, score))
    (pass, [], p.score)
  (r.1, { p with bullets := r.2.1, score := r.2.2 })

/-- Start of a Versus level transition when the field empties
(`src/main.ts` lines 275–278). -/
def vsLevelTrigger (st : GState) : GState :=
  if st.asteroids.length = 0 ∧ st.levelTransitionMs ≤ 0 then
    { st with levelTransitionMs := 2000 }
  else st

/-- Countdown and expiry of a Versus level transition
(`src/main.ts` lines 279–302): on expiry the next level is seeded and
every player is reset to one full-size ship at its spawn point. -/
def vsLevelExpire (sz : ShipSizes) (ρ : Rng) (k : ℕ) (dt w h : ℚ)
    (st : GState) : GState × ℕ :=
  if st.levelTransitionMs > 0 then
    if max 0 (st.levelTransitionMs - dt) = 0 then
      let nl := nextLevel ρ k w h { st with levelTransitionMs := 0 }
      ({ nl.1 with
          players := nl.1.players.map fun p =>
            { p with
              dirX := 0
              dirY := -1
              isBoosting := false
              fireCooldownMs := 200
              ships :=
                [{ x := if p.color = Color.blue then w * 0.25 else w * 0.75
                   y := h * 0.5
                   dx := 0
                   dy := 0
                   size := sz.large
                   invincibleMs := 2000 }]
              bullets := [] } }, nl.2)
    else ({ st with levelTransitionMs := max 0 (st.levelTransitionMs - dt) }, k)
  else (st, k)

/-- Versus level progression (`src/main.ts` lines 274–303). -/
def vsLevelPhase (sz : ShipSizes) (ρ : Rng) (k : ℕ) (dt w h : ℚ)
    (st : GState) : GState × ℕ :=
  vsLevelExpire sz ρ k dt w h (vsLevelTrigger st)

/-- `src/main.ts` `tryPlace` inside `splitShipFragment`: up to 24 attempts
at a random radius in `[2·next, 4·next)` and random direction around the
destroyed fragment, rejecting circle overlap with existing fragments. -/
def tryPlace (ρ : Rng) (next bx bY bdx bdy : ℚ) (existing : List MpShip) :
    ℕ → ℕ → Option MpShip × ℕ
  | 0, k => (none, k)
  | att + 1, k =>
    let r := next * 2 + (ρ k).t * (next * 2 * 2 - next * 2)
    let th := ρ (k + 1)
    let x := bx + th.ux * r
    let y := bY + th.uy * r
    if existing.any fun e =>
        decide ((x - e.x) * (x - e.x) + (y - e.y) * (y - e.y) <
          (next + e.size) * (next + e.size)) then
      tryPlace ρ next bx bY bdx bdy existing att (k + 2)
    else
      (some { x := x, y := y, dx := bdx, dy := bdy, size := next,
              invincibleMs := 2000 }, k + 2)

/-- `src/main.ts` `splitShipFragment` on a player's fragment list: a
Large/Med fragment splits into two non-overlapping children when two
placements are found, otherwise it is removed outright; a Small fragment
always vanishes. -/
def splitShipFragment (sz : ShipSizes) (ρ : Rng) (k : ℕ)
    (ships : List MpShip) (index : ℕ) : List MpShip × ℕ :=
  match ships.get? index with
  | none => (ships, k)
  | some s =>
    let next :=
      if s.size = sz.large then some sz.med
      else if s.size = sz.med then some sz.small
      else none
    match next with
    | none => (ships.eraseIdx index, k)
    | some nx =>
      let pool := ships.take index ++ ships.drop (index + 1)
      let ra := tryPlace ρ nx s.x s.y s.dx s.dy pool 24 k
      match ra.1 with
      | none => (ships.eraseIdx index, ra.2)
      | some a =>
        let rb := tryPlace ρ nx s.x s.y s.dx s.dy (pool ++ [a]) 24 ra.2
        match rb.1 with
        | none => (ships.eraseIdx index, rb.2)
        | some b => (ships.take index ++ [a, b] ++ ships.drop (index + 1), rb.2)

/-- First vulnerable ship of a player whose hull contains the point
(`updateVersus` bullet–ship loop). -/
def findShipHitInPlayer (p : Player) (bx py : ℚ) : Option ℕ :=
  p.ships.findIdx? fun s =>
    decide (s.invincibleMs ≤ 0) &&
      pointInPolygon (bx, py)
        (transformPoints (makeShipGeometryVerts s.size) p.dirX p.dirY s.x s.y)

/-- First defender (in index order, skipping the attacker) with a ship
containing the point. -/
def firstDefenderHit (ps : List Player) (bx py : ℚ) :
    List ℕ → Option (ℕ × ℕ)
  | [] => none
  | di :: rest =>
    match ps.get? di with
    | none => firstDefenderHit ps bx py rest
    | some p =>
      match findShipHitInPlayer p bx py with
      | some si => some (di, si)
      | none => firstDefenderHit ps bx py rest

/-- Accumulator for the Versus ship-collision phases. -/
structure VsBs where
  players : List Player
  shake : ℚ
  explosions : List Spark
  k : ℕ

/-- One attacker bullet against the other players' ships
(`src/main.ts` lines 347–380). -/
def vsBulletVsShipsStep (sz : ShipSizes) (ρ : Rng) (ai : ℕ)
    (acc : VsBs × List MpBullet) (b : MpBullet) : VsBs × List MpBullet :=
  let st := acc.1
  match firstDefenderHit st.players b.x b.y
      ((List.range st.players.length).filter fun d => d ≠ ai) with
  | none => (st, acc.2 ++ [b])
  | some (di, si) =>
    match st.players.get? di with
    | none => (st, acc.2)
    | some defender =>
      match defender.ships.get? si with
      | none => (st, acc.2)
      | some s =>
        let burst :=
          spawnSparkBurst s.x s.y (s.size * 2.5) explosionDurationMsShip
            (some defender.color) ρ st.k
        let split := splitShipFragment sz ρ burst.2 defender.ships si
        let ps1 := st.players.set di { defender with ships := split.1 }
        let ps2 :=
          match ps1.get? ai with
          | some atk =>
            ps1.set ai { atk with score := atk.score + scoreForShip sz s.size }
          | none => ps1
        ({ players := ps2
           shake := 1
           explosions := st.explosions ++ burst.1
           k := split.2 }, acc.2)

/-- All bullets of one attacker against the other players' ships. -/
def vsBulletsVsShipsPlayer (sz : ShipSizes) (ρ : Rng) (st : VsBs) (ai : ℕ) :
    VsBs :=
  match st.players.get? ai with
  | none => st
  | some atk =>
    let r := atk.bullets.foldl (vsBulletVsShipsStep sz ρ ai) (st, [])
    match r.1.players.get? ai with
    | none => r.1
    | some atk1 =>
      { r.1 with players := r.1.players.set ai { atk1 with bullets := r.2 } }

/-- Bullet–ship phase over all attackers in order. -/
def vsBulletsVsShips (sz : ShipSizes) (ρ : Rng) (k : ℕ)
    (ps : List Player) (shake : ℚ) (explosions : List Spark) : VsBs :=
  (List.range ps.length).foldl (vsBulletsVsShipsPlayer sz ρ)
    { players := ps, shake := shake, explosions := explosions, k := k }

/-- Wrapped circle test between a ship fragment and an asteroid
(`src/main.ts` lines 387–391). -/
def shipHitsAsteroid (w h : ℚ) (s : MpShip) (a : Asteroid) : Bool :=
  let dx := wrapDelta (s.x - a.x) w
  let dy := wrapDelta (s.y - a.y) h
  let r := a.size + s.size
  decide (dx * dx + dy * dy ≤ r * r)

/-- The asteroid–ship loop of `updateVersus` (`src/main.ts` lines
382–407); on a hit the fragment at the current index is split in place
and the same index is re-examined (`si--` then `break`).  The fuel
argument dominates the loop's runtime: every iteration either advances
the index or replaces a vulnerable fragment by invincible ones, so
`3 * ships.length + 3` steps always suffice. -/
def vsAstShipsLoop (sz : ShipSizes) (ρ : Rng) (w h : ℚ)
    (asts : List Asteroid) :
    ℕ → ℕ → Player → ℚ → List Spark → ℕ → Player × ℚ × List Spark × ℕ
  | 0, _, p, shake, expl, k => (p, shake, expl, k)
  | fuel + 1, si, p, shake, expl, k =>
    match p.ships.get? si with
    | none => (p, shake, expl, k)
    | some s =>
      if s.invincibleMs > 0 then
        vsAstShipsLoop sz ρ w h asts fuel (si + 1) p shake expl k
      else if asts.any (shipHitsAsteroid w h s) then
        let burst :=
          spawnSparkBurst s.x s.y (s.size * 2.5) explosionDurationMsShip
            (some p.color) ρ k
        let split := splitShipFragment sz ρ burst.2 p.ships si
        vsAstShipsLoop sz ρ w h asts fuel si { p with ships := split.1 } 1
          (expl ++ burst.1) split.2
      else vsAstShipsLoop sz ρ w h asts fuel (si + 1) p shake expl k

/-- Asteroid–ship phase over all players in order. -/
def vsAstShips (sz : ShipSizes) (ρ : Rng) (w h : ℚ) (asts : List Asteroid)
    (st : VsBs) : VsBs :=
  (List.range st.players.length).foldl
    (fun acc pi =>
      match acc.players.get? pi with
      | none => acc
      | some p =>
        let r := vsAstShipsLoop sz ρ w h asts (3 * p.ships.length + 3) 0 p
          acc.shake acc.explosions acc.k
        { acc with
          players := acc.players.set pi r.1
          shake := r.2.1
          explosions := r.2.2.1
          k := r.2.2.2 })
    st

/-- The ship–ship loop of `updateVersus` (`src/main.ts` lines 409–449)
for one pair of players; on a hit both fragments split, the outer index
is kept (`a--` then `break`) and the inner scan restarts.  As in
`vsAstShipsLoop` the fuel bound dominates the loop. -/
def vsShipShipLoop (sz : ShipSizes) (ρ : Rng) (w h : ℚ) :
    ℕ → ℕ → ℕ → Player → Player → ℚ → List Spark → ℕ →
      Player × Player × ℚ × List Spark × ℕ
  | 0, _, _, A, B, shake, expl, k => (A, B, shake, expl, k)
  | fuel + 1, a, b, A, B, shake, expl, k =>
    match A.ships.get? a with
    | none => (A, B, shake, expl, k)
    | some sa =>
      match B.ships.get? b with
      | none => vsShipShipLoop sz ρ w h fuel (a + 1) 0 A B shake expl k
      | some sb =>
        if sa.invincibleMs > 0 ∨ sb.invincibleMs > 0 then
          vsShipShipLoop sz ρ w h fuel a (b + 1) A B shake expl k
        else
          let dx := wrapDelta (sa.x - sb.x) w
          let dy := wrapDelta (sa.y - sb.y) h
          if dx * dx + dy * dy ≤ (sa.size + sb.size) * (sa.size + sb.size) then
            let burstA :=
              spawnSparkBurst sa.x sa.y (sa.size * 2.5) explosionDurationMsShip
                (some A.color) ρ k
            let burstB :=
              spawnSparkBurst sb.x sb.y (sb.size * 2.5) explosionDurationMsShip
                (some B.color) ρ burstA.2
            let splitB := splitShipFragment sz ρ burstB.2 B.ships b
            let splitA := splitShipFragment sz ρ splitB.2 A.ships a
            vsShipShipLoop sz ρ w h fuel a 0 { A with ships := splitA.1 }
              { B with ships := splitB.1 } 1
              (expl ++ burstA.1 ++ burstB.1) splitA.2
          else vsShipShipLoop sz ρ w h fuel a (b + 1) A B shake expl k

/-- Ship–ship phase over all ordered pairs of players. -/
def vsShipShip (sz : ShipSizes) (ρ : Rng) (w h : ℚ) (st : VsBs) : VsBs :=
  ((List.range st.players.length).flatMap fun ai =>
      ((List.range st.players.length).filter fun bi => ai < bi).map
        fun bi => (ai, bi)).foldl
    (fun acc pr =>
      match acc.players.get? pr.1, acc.players.get? pr.2 with
      | some A, some B =>
        let r := vsShipShipLoop sz ρ w h
          ((3 * A.ships.length + 3) * (B.ships.length + 2) + 3) 0 0 A B
          acc.shake acc.explosions acc.k
        { acc with
          players := (acc.players.set pr.1 r.1).set pr.2 r.2.1
          shake := r.2.2.1
          explosions := r.2.2.2.1
          k := r.2.2.2.2 }
      | _, _ => acc)
    st

/-- `(state.players[i]?.ships.length ?? 0) > 0` of the Versus end
condition. -/
def aliveAt (ps : List Player) (i : ℕ) : Bool :=
  match ps.get? i with
  | some p => decide (p.ships.length > 0)
  | none => false

/-- Versus end condition (`src/main.ts` lines 451–457): back to the menu
exactly when no transition is pending and exactly one of the two sides
has ships left. -/
def vsEndCheck (st : GState) : GState :=
  if st.levelTransitionMs ≤ 0 ∧ aliveAt st.players 0 ≠ aliveAt st.players 1 then
    { st with mode := GameMode.menu, menuAnimationMs := 0 }
  else st

/-- Asteroid integration, particle decay and camera ease at the top of
`updateVersus` (`src/main.ts` lines 113–124). -/
def vsMoveStage (ex dt w h : ℚ) (st : GState) : GState :=
  { st with
    asteroids := st.asteroids.map (moveAsteroid dt w h)
    explosions := tickExplosions st.explosions dt w h
    screenShakeAmount := easeCameraToZero ex st.screenShakeAmount }

/-- Per-player input/physics pass of `updateVersus`; player one reads the
first pad, player two the second. -/
def vsPlayersStage (inp : Input) (dt w h : ℚ) (st : GState) : GState :=
  { st with
    players := st.players.map fun p =>
      vsPlayerInputPhase (if p.color = Color.blue then inp.p1 else inp.p2)
        dt w h p }

/-- Bullet–asteroid pass over all players plus the asteroid rebuild
(`src/main.ts` lines 228–272), returning the next draw index. -/
def vsPassStage (ρ : Rng) (w h : ℚ) (st : GState) : GState × ℕ :=
  let pr := st.players.foldl
    (fun (acc : VsPass × List Player) p =>
      let r := vsProcessPlayerBullets w h ρ acc.1 p
      (r.1, acc.2 ++ [r.2]))
    (({ asteroids := st.asteroids
        toRemove := []
        children := []
        shake := st.screenShakeAmount
        explosions := st.explosions
        k := 0 } : VsPass), [])
  ({ st with
      asteroids := rebuildAsteroids pr.1.asteroids pr.1.toRemove pr.1.children
      explosions := pr.1.explosions
      screenShakeAmount := pr.1.shake
      players := pr.2 }, pr.1.k)

/-- Bullet–ship, asteroid–ship and ship–ship collision phases of
`updateVersus` (`src/main.ts` lines 305–449). -/
def vsShipsStage (sz : ShipSizes) (ρ : Rng) (k : ℕ) (w h : ℚ)
    (st : GState) : GState :=
  let bs := vsBulletsVsShips sz ρ k st.players st.screenShakeAmount
    st.explosions
  let as_ := vsAstShips sz ρ w h st.asteroids bs
  let ss := vsShipShip sz ρ w h as_
  { st with
    players := ss.players
    screenShakeAmount := ss.shake
    explosions := ss.explosions }

/-- `src/main.ts` `updateVersus`: one full Versus tick. -/
def updateVersus (sz : ShipSizes) (ρ : Rng) (inp : Input) (ex dt w h : ℚ)
    (st : GState) : GState :=
  vsEndCheck
    (vsShipsStage sz ρ
      (vsLevelPhase sz ρ
        (vsPassStage ρ w h (vsPlayersStage inp dt w h (vsMoveStage ex dt w h st))).2
        dt w h
        (vsPassStage ρ w h (vsPlayersStage inp dt w h (vsMoveStage ex dt w h st))).1).2
      w h
      (vsLevelPhase sz ρ
        (vsPassStage ρ w h (vsPlayersStage inp dt w h (vsMoveStage ex dt w h st))).2
        dt w h
        (vsPassStage ρ w h (vsPlayersStage inp dt w h (vsMoveStage ex dt w h st))).1).1)

/-- `src/main.ts` `update`: mode dispatch, menu housekeeping and the
level-transition gate in front of the single-player tick. -/
def update (sz : ShipSizes) (ρ : Rng) (inp : Input) (ex dt w h : ℚ)
    (st : GState) : GState :=
  if st.mode = GameMode.versus then updateVersus sz ρ inp ex dt w h st
  else if st.mode ≠ GameMode.playing then
    let st1 :=
      { st with
        menuAnimationMs := st.menuAnimationMs + dt
        asteroids := st.asteroids.map (moveAsteroid dt w h)
        explosions := tickExplosions st.explosions dt w h }
    let st2 :=
      { st1 with screenShakeAmount := easeCameraToZero ex st1.screenShakeAmount }
    if inp.playerCount ≥ 2 ∧ inp.anySouthJustPressed then
      (startVersus sz ρ 0 w h st2).1
    else if inp.playerCount > 0 ∧ inp.p1.justPressedSouth then
      (startNewGame ρ 0 w h st2).1
    else st2
  else if st.levelTransitionMs > 0 then
    let lt := max 0 (st.levelTransitionMs - dt)
    if lt = 0 then (nextLevel ρ 0 w h { st with levelTransitionMs := 0 }).1
    else { st with levelTransitionMs := lt }
  else spPlayingTick ρ inp.p1 ex dt w h st

theorem wrapDelta_abs_le (d s : ℚ) (hs : 0 < s) : |wrapDelta d s| ≤ s / 2 :=
  abs_le.mpr ⟨wrapDelta_lower d s hs, (wrapDelta_upper d s hs).le⟩

theorem wrapDelta_neg_of_ne {d s : ℚ} (hs : 0 < s)
    (h : wrapDelta d s ≠ -(s / 2)) : wrapDelta (-d) s = -wrapDelta d s := by
  have hfr : Int.fract ((d + s / 2) / s) ≠ 0 := by
    intro h0
    apply h
    rw [wrapDelta_eq d s hs, h0]
    ring
  have harg : (-d + s / 2) / s = -((d + s / 2) / s) + 1 := by
    field_simp
    ring
  rw [wrapDelta_eq (-d) s hs, wrapDelta_eq d s hs, harg]
  have h1 : Int.fract (-((d + s / 2) / s) + (1:ℤ)) =
      Int.fract (-((d + s / 2) / s)) := Int.fract_add_int _ 1
  rw [show ((1:ℚ)) = ((1:ℤ):ℚ) by norm_num, h1, Int.fract_neg hfr]
  ring

/-- C5: for all `v`, `extent > 0`, `margin ≥ 0`, `wrapWithMargin v extent
margin` lies in the half-open interval `[-margin, extent + margin)`
(including for negative `v`), and applying it twice with the same extent
and margin equals applying it once. -/
theorem wrapWithMargin_range_and_idem (v extent margin : ℚ)
    (hext : 0 < extent) (hm : 0 ≤ margin) :
    -margin ≤ wrapWithMargin v extent margin ∧
      wrapWithMargin v extent margin < extent + margin ∧
      wrapWithMargin (wrapWithMargin v extent margin) extent margin =
        wrapWithMargin v extent margin :=
  ⟨(wrapWithMargin_mem v extent margin hext hm).1,
    (wrapWithMargin_mem v extent margin hext hm).2,
    wrapWithMargin_idem v extent margin hext hm⟩

theorem wrapWithMargin_range_and_idem_witness :
    (0:ℚ) < 100 ∧ (0:ℚ) ≤ 1/2 ∧
      (-(1/2) ≤ wrapWithMargin (-3) 100 (1/2) ∧
        wrapWithMargin (-3) 100 (1/2) < 100 + 1/2 ∧
        wrapWithMargin (wrapWithMargin (-3) 100 (1/2)) 100 (1/2) =
          wrapWithMargin (-3) 100 (1/2)) :=
  ⟨by norm_num, by norm_num,
    wrapWithMargin_range_and_idem (-3) 100 (1/2) (by norm_num) (by norm_num)⟩

/-- C6 counterexample: at `a = 1`, `b = 0`, `span = 2` the delta `a - b`
is exactly half the span, both `wrapDelta (a-b) span` and
`wrapDelta (b-a) span` evaluate to `-1`, and the claimed antisymmetry
`wrapDelta (a-b) span = -wrapDelta (b-a) span` fails. -/
theorem wrapDelta_antisym_counterexample :
    wrapDelta (1 - 0) 2 = -1 ∧ wrapDelta (0 - 1) 2 = -1 ∧
      ¬ (wrapDelta (1 - 0) 2 = -wrapDelta (0 - 1) 2) := by
  have h1 : wrapDelta (1 - 0 : ℚ) 2 = -1 := by
    rw [show ((1:ℚ) - 0) = 1 by norm_num, wrapDelta_eq 1 2 (by norm_num)]
    norm_num
  have h2 : wrapDelta (0 - 1 : ℚ) 2 = -1 := by
    rw [show ((0:ℚ) - 1) = -1 by norm_num, wrapDelta_eq (-1) 2 (by norm_num)]
    norm_num
  refine ⟨h1, h2, ?_⟩
  rw [h1, h2]
  norm_num

/-- C6 amended: for all `a`, `b`, `span > 0`, `wrapDelta (a-b) span` lies
in `[-span/2, span/2)` and its magnitude is at most `span/2`; the
antisymmetry `wrapDelta (a-b) span = -wrapDelta (b-a) span` holds
whenever `wrapDelta (a-b) span` is not the boundary value `-span/2`
(i.e., whenever `a - b` is not congruent to `span/2` modulo `span`). -/
theorem wrapDelta_range_and_antisym (a b span : ℚ) (hs : 0 < span) :
    -(span / 2) ≤ wrapDelta (a - b) span ∧
      wrapDelta (a - b) span < span / 2 ∧
      |wrapDelta (a - b) span| ≤ span / 2 ∧
      (wrapDelta (a - b) span ≠ -(span / 2) →
        wrapDelta (a - b) span = -wrapDelta (b - a) span) := by
  refine ⟨wrapDelta_lower _ span hs, wrapDelta_upper _ span hs,
    wrapDelta_abs_le _ span hs, fun hne => ?_⟩
  have h := wrapDelta_neg_of_ne hs hne
  rw [show -(a - b) = b - a by ring] at h
  rw [h]
  ring

theorem wrapDelta_range_and_antisym_witness :
    (0:ℚ) < 2 ∧
      (-(2 / 2) ≤ wrapDelta ((1/4 : ℚ) - 0) 2 ∧
        wrapDelta ((1/4 : ℚ) - 0) 2 < 2 / 2 ∧
        |wrapDelta ((1/4 : ℚ) - 0) 2| ≤ 2 / 2 ∧
        (wrapDelta ((1/4 : ℚ) - 0) 2 ≠ -(2 / 2) →
          wrapDelta ((1/4 : ℚ) - 0) 2 = -wrapDelta ((0 : ℚ) - 1/4) 2)) :=
  ⟨by norm_num, wrapDelta_range_and_antisym (1/4) 0 2 (by norm_num)⟩

theorem wrapWithMargin_sub_int (v mx margin : ℚ) (ht : 0 < mx + margin * 2) :
    wrapWithMargin v mx margin =
      v - (mx + margin * 2) * ⌊(v + margin) / (mx + margin * 2)⌋ := by
  rw [wrapWithMargin_eq v mx margin ht, Int.fract]
  have hne : mx + margin * 2 ≠ 0 := ne_of_gt ht
  field_simp
  ring

theorem speedSq_eq (ux uy s : ℚ) (hu : ux ^ 2 + uy ^ 2 = 1) :
    (ux * s) ^ 2 + (uy * s) ^ 2 = s ^ 2 := by
  have h : (ux * s) ^ 2 + (uy * s) ^ 2 = (ux ^ 2 + uy ^ 2) * s ^ 2 := by ring
  rw [h, hu, one_mul]

/-- A `splitAsteroid` child stays within the spawn jitter of its parent
per axis (wrapped on the torus its coordinate lives on) and its speed is
in the configured child-speed range. -/
theorem splitChild_spec (ρ : Rng) (hρ : ρ.Good) (k : ℕ) (w h cs : ℚ)
    (hw : 1 ≤ w) (hh : 1 ≤ h) (hcs : 0 ≤ cs) (a : Asteroid) :
    |wrapDelta ((splitChild ρ k w h cs a).x - a.x) (w + cs * 2)| ≤ 0.125 ∧
      |wrapDelta ((splitChild ρ k w h cs a).y - a.y) (h + cs * 2)| ≤ 0.125 ∧
      childSpeedMin ^ 2 ≤
        (splitChild ρ k w h cs a).dx ^ 2 + (splitChild ρ k w h cs a).dy ^ 2 ∧
      (splitChild ρ k w h cs a).dx ^ 2 + (splitChild ρ k w h cs a).dy ^ 2 ≤
        childSpeedMax ^ 2 ∧
      (splitChild ρ k w h cs a).size = cs := by
  have hwt : 0 < w + cs * 2 := by linarith
  have hht : 0 < h + cs * 2 := by linarith
  obtain ⟨hjx0, hjx1, -⟩ := hρ (k + 2)
  obtain ⟨hjy0, hjy1, -⟩ := hρ (k + 3)
  obtain ⟨hs0, hs1, -⟩ := hρ (k + 1)
  obtain ⟨-, -, hu⟩ := hρ k
  refine ⟨?_, ?_, ?_, ?_, rfl⟩
  · show |wrapDelta
      (wrapWithMargin (a.x + ((ρ (k + 2)).t * 2 - 1) * spawnJitter) w cs - a.x)
      (w + cs * 2)| ≤ 0.125
    set j := ((ρ (k + 2)).t * 2 - 1) * spawnJitter with hjdef
    have hj : |j| ≤ 0.125 := by
      rw [hjdef, spawnJitter]
      rw [abs_le]
      constructor <;> nlinarith
    rw [wrapWithMargin_sub_int _ w cs hwt]
    have harg : a.x + j - (w + cs * 2) * ⌊(a.x + j + cs) / (w + cs * 2)⌋ - a.x =
        j + (w + cs * 2) * ((-⌊(a.x + j + cs) / (w + cs * 2)⌋ : ℤ) : ℚ) := by
      push_cast
      ring
    rw [harg, wrapDelta_add_int_mul j (w + cs * 2) hwt _]
    have habs := abs_le.mp hj
    rw [wrapDelta_eq_self hwt (by nlinarith [habs.1]) (by nlinarith [habs.2])]
    exact hj
  · show |wrapDelta
      (wrapWithMargin (a.y + ((ρ (k + 3)).t * 2 - 1) * spawnJitter) h cs - a.y)
      (h + cs * 2)| ≤ 0.125
    set j := ((ρ (k + 3)).t * 2 - 1) * spawnJitter with hjdef
    have hj : |j| ≤ 0.125 := by
      rw [hjdef, spawnJitter]
      rw [abs_le]
      constructor <;> nlinarith
    rw [wrapWithMargin_sub_int _ h cs hht]
    have harg : a.y + j - (h + cs * 2) * ⌊(a.y + j + cs) / (h + cs * 2)⌋ - a.y =
        j + (h + cs * 2) * ((-⌊(a.y + j + cs) / (h + cs * 2)⌋ : ℤ) : ℚ) := by
      push_cast
      ring
    rw [harg, wrapDelta_add_int_mul j (h + cs * 2) hht _]
    have habs := abs_le.mp hj
    rw [wrapDelta_eq_self hht (by nlinarith [habs.1]) (by nlinarith [habs.2])]
    exact hj
  · show childSpeedMin ^ 2 ≤
      ((ρ k).ux * (childSpeedMin + (ρ (k + 1)).t * (childSpeedMax - childSpeedMin))) ^ 2 +
        ((ρ k).uy * (childSpeedMin + (ρ (k + 1)).t * (childSpeedMax - childSpeedMin))) ^ 2
    rw [speedSq_eq _ _ _ hu]
    simp only [childSpeedMin, childSpeedMax]
    nlinarith [hs0, hs1]
  · show ((ρ k).ux * (childSpeedMin + (ρ (k + 1)).t * (childSpeedMax - childSpeedMin))) ^ 2 +
        ((ρ k).uy * (childSpeedMin + (ρ (k + 1)).t * (childSpeedMax - childSpeedMin))) ^ 2 ≤
      childSpeedMax ^ 2
    rw [speedSq_eq _ _ _ hu]
    simp only [childSpeedMin, childSpeedMax]
    nlinarith [hs0, hs1]

theorem childSizeOf_big : childSizeOf 7 = 4 := by
  unfold childSizeOf Size.Big Size.Med
  norm_num

theorem childSizeOf_med : childSizeOf 4 = 2 := by
  unfold childSizeOf Size.Big Size.Med Size.Small
  norm_num

theorem childSizeOf_small : childSizeOf 2 = 0 := by
  unfold childSizeOf Size.Big Size.Med
  norm_num

theorem splitAsteroid_of_big {a : Asteroid} (h7 : a.size = 7)
    (ρ : Rng) (k : ℕ) (w h : ℚ) :
    splitAsteroid ρ k w h a =
      [splitChild ρ k w h 4 a, splitChild ρ (k + 7) w h 4 a] := by
  unfold splitAsteroid
  rw [h7, childSizeOf_big, if_neg (by norm_num)]

theorem splitAsteroid_of_med {a : Asteroid} (h4 : a.size = 4)
    (ρ : Rng) (k : ℕ) (w h : ℚ) :
    splitAsteroid ρ k w h a =
      [splitChild ρ k w h 2 a, splitChild ρ (k + 7) w h 2 a] := by
  unfold splitAsteroid
  rw [h4, childSizeOf_med, if_neg (by norm_num)]

theorem splitAsteroid_of_small {a : Asteroid} (h2 : a.size = 2)
    (ρ : Rng) (k : ℕ) (w h : ℚ) : splitAsteroid ρ k w h a = [] := by
  unfold splitAsteroid
  rw [h2, childSizeOf_small, if_pos rfl]

theorem spProcessBullet_score {w h : ℚ} {ρ : Rng} (st : HitPass)
    (b : Bullet) (i : ℕ) (a : Asteroid)
    (hfind : findHit w h b.x b.y st.asteroids 0 = some (i, a)) :
    (spProcessBullet w h ρ st b).score = st.score + a.size * 10 := by
  unfold spProcessBullet
  simp only [hfind]
  split <;> rfl

/-- C1: for a bullet–asteroid hit resolved in a single-player tick,
destroying a Big (size 7) or Med (size 4) asteroid yields exactly two
children of the next smaller size (7 → 4, 4 → 2) and a Small (size 2)
asteroid yields none; every child is placed within 0.125 units (wrapped)
per axis of its parent and its speed lies in `[0.005, 0.015]`; and the
hit adds the destroyed asteroid's size times 10 to the score (70 for a
Big of size 7). -/
theorem splitAsteroid_hit_spec (ρ : Rng) (hρ : ρ.Good) (k : ℕ)
    (w h : ℚ) (hw : 1 ≤ w) (hh : 1 ≤ h) (a : Asteroid) :
    (a.size = 7 → (splitAsteroid ρ k w h a).length = 2 ∧
      ∀ c ∈ splitAsteroid ρ k w h a, c.size = 4) ∧
    (a.size = 4 → (splitAsteroid ρ k w h a).length = 2 ∧
      ∀ c ∈ splitAsteroid ρ k w h a, c.size = 2) ∧
    (a.size = 2 → splitAsteroid ρ k w h a = []) ∧
    (∀ c ∈ splitAsteroid ρ k w h a,
      |wrapDelta (c.x - a.x) (w + c.size * 2)| ≤ 0.125 ∧
      |wrapDelta (c.y - a.y) (h + c.size * 2)| ≤ 0.125 ∧
      (0.005 : ℚ) ^ 2 ≤ c.dx ^ 2 + c.dy ^ 2 ∧
      c.dx ^ 2 + c.dy ^ 2 ≤ (0.015 : ℚ) ^ 2) ∧
    (∀ (st : HitPass) (b : Bullet) (i : ℕ),
      findHit w h b.x b.y st.asteroids 0 = some (i, a) →
      (spProcessBullet w h ρ st b).score = st.score + a.size * 10) := by
  refine ⟨?_, ?_, ?_, ?_, fun st b i hf => spProcessBullet_score st b i a hf⟩
  · intro h7
    rw [splitAsteroid_of_big h7]
    refine ⟨rfl, ?_⟩
    intro c hc
    rcases List.mem_pair.mp hc with rfl | rfl <;> rfl
  · intro h4
    rw [splitAsteroid_of_med h4]
    refine ⟨rfl, ?_⟩
    intro c hc
    rcases List.mem_pair.mp hc with rfl | rfl <;> rfl
  · intro h2
    exact splitAsteroid_of_small h2 ρ k w h
  · intro c hc
    unfold splitAsteroid at hc
    by_cases hz : childSizeOf a.size = 0
    · rw [if_pos hz] at hc
      exact absurd hc (List.not_mem_nil c)
    · rw [if_neg hz] at hc
      have hcs : 0 ≤ childSizeOf a.size := by
        unfold childSizeOf Size.Big Size.Med Size.Small
        split
        · norm_num
        · split <;> norm_num
      rcases List.mem_pair.mp hc with rfl | rfl
      · have := splitChild_spec ρ hρ k w h (childSizeOf a.size) hw hh hcs a
        exact ⟨this.1, this.2.1, this.2.2.1, this.2.2.2.1⟩
      · have := splitChild_spec ρ hρ (k + 7) w h (childSizeOf a.size) hw hh hcs a
        exact ⟨this.1, this.2.1, this.2.2.1, this.2.2.2.1⟩

def constRng : Rng := fun _ => ⟨0, 1, 0⟩

theorem constRng_good : constRng.Good := by
  intro k
  refine ⟨le_refl 0, ?_, ?_⟩ <;> norm_num [constRng]

def bigAsteroidC1 : Asteroid :=
  { x := 10, y := 10, dx := 0, dy := 0, angle := 0, dangle := 0,
    variant := 0, size := 7, timeUntilDead := none }

theorem splitAsteroid_hit_spec_witness :
    constRng.Good ∧ (1 : ℚ) ≤ 100 ∧
      ((bigAsteroidC1.size = 7 →
          (splitAsteroid constRng 0 100 100 bigAsteroidC1).length = 2 ∧
          ∀ c ∈ splitAsteroid constRng 0 100 100 bigAsteroidC1, c.size = 4) ∧
        (bigAsteroidC1.size = 4 →
          (splitAsteroid constRng 0 100 100 bigAsteroidC1).length = 2 ∧
          ∀ c ∈ splitAsteroid constRng 0 100 100 bigAsteroidC1, c.size = 2) ∧
        (bigAsteroidC1.size = 2 →
          splitAsteroid constRng 0 100 100 bigAsteroidC1 = []) ∧
        (∀ c ∈ splitAsteroid constRng 0 100 100 bigAsteroidC1,
          |wrapDelta (c.x - bigAsteroidC1.x) (100 + c.size * 2)| ≤ 0.125 ∧
          |wrapDelta (c.y - bigAsteroidC1.y) (100 + c.size * 2)| ≤ 0.125 ∧
          (0.005 : ℚ) ^ 2 ≤ c.dx ^ 2 + c.dy ^ 2 ∧
          c.dx ^ 2 + c.dy ^ 2 ≤ (0.015 : ℚ) ^ 2) ∧
        (∀ (st : HitPass) (b : Bullet) (i : ℕ),
          findHit 100 100 b.x b.y st.asteroids 0 = some (i, bigAsteroidC1) →
          (spProcessBullet 100 100 constRng st b).score =
            st.score + bigAsteroidC1.size * 10)) :=
  ⟨constRng_good, by norm_num,
    splitAsteroid_hit_spec constRng constRng_good 0 100 100 (by norm_num)
      (by norm_num) bigAsteroidC1⟩


theorem spMoveShip_proj (pad : Pad) (dt w h : ℚ) (sh : Ship) :
    (spMoveShip pad dt w h sh).respawnMs = sh.respawnMs ∧
      (spMoveShip pad dt w h sh).size = sh.size ∧
      (spMoveShip pad dt w h sh).lives = sh.lives ∧
      (spMoveShip pad dt w h sh).score = sh.score ∧
      (spMoveShip pad dt w h sh).fireCooldownMs = sh.fireCooldownMs ∧
      (spMoveShip pad dt w h sh).invincibleMs = sh.invincibleMs ∧
      (spMoveShip pad dt w h sh).bullets = sh.bullets := by
  simp only [spMoveShip]
  split
  · split <;> exact ⟨rfl, rfl, rfl, rfl, rfl, rfl, rfl⟩
  · exact ⟨rfl, rfl, rfl, rfl, rfl, rfl, rfl⟩

theorem spMoveShip_pos (pad : Pad) (dt w h : ℚ) (sh : Ship)
    (hrs : sh.respawnMs ≤ 0) :
    (spMoveShip pad dt w h sh).x =
        wrapWithMargin (sh.x + sh.dx) w (sh.size / 2) ∧
      (spMoveShip pad dt w h sh).y =
        wrapWithMargin (sh.y + sh.dy) h (sh.size / 2) := by
  simp only [spMoveShip]
  rw [if_pos hrs]
  split <;> exact ⟨rfl, rfl⟩

theorem spFire_proj (pad : Pad) (dt w h : ℚ) (sh : Ship) :
    (spFire pad dt w h sh).x = sh.x ∧
      (spFire pad dt w h sh).y = sh.y ∧
      (spFire pad dt w h sh).dx = sh.dx ∧
      (spFire pad dt w h sh).dy = sh.dy ∧
      (spFire pad dt w h sh).respawnMs = sh.respawnMs ∧
      (spFire pad dt w h sh).size = sh.size ∧
      (spFire pad dt w h sh).lives = sh.lives ∧
      (spFire pad dt w h sh).score = sh.score ∧
      (spFire pad dt w h sh).invincibleMs = sh.invincibleMs ∧
      (spFire pad dt w h sh).dirX = sh.dirX ∧
      (spFire pad dt w h sh).dirY = sh.dirY := by
  simp only [spFire]
  split <;> exact ⟨rfl, rfl, rfl, rfl, rfl, rfl, rfl, rfl, rfl, rfl, rfl⟩

theorem tickInvincible_proj (dt : ℚ) (sh : Ship) :
    (tickInvincible dt sh).x = sh.x ∧
      (tickInvincible dt sh).y = sh.y ∧
      (tickInvincible dt sh).dx = sh.dx ∧
      (tickInvincible dt sh).dy = sh.dy ∧
      (tickInvincible dt sh).respawnMs = sh.respawnMs ∧
      (tickInvincible dt sh).size = sh.size ∧
      (tickInvincible dt sh).lives = sh.lives ∧
      (tickInvincible dt sh).score = sh.score ∧
      (tickInvincible dt sh).dirX = sh.dirX ∧
      (tickInvincible dt sh).dirY = sh.dirY ∧
      (tickInvincible dt sh).bullets = sh.bullets := by
  simp only [tickInvincible]
  split <;> exact ⟨rfl, rfl, rfl, rfl, rfl, rfl, rfl, rfl, rfl, rfl, rfl⟩

theorem spLevelClear_lt (st : GState) :
    (spLevelClear st).levelTransitionMs = st.levelTransitionMs ∨
      (spLevelClear st).levelTransitionMs = 2000 := by
  simp only [spLevelClear]
  split
  · exact Or.inr rfl
  · exact Or.inl rfl

theorem spRespawn_proj (dt w h : ℚ) (st : GState) (sh : Ship) :
    ((spRespawn dt w h st sh).mode = st.mode ∧
        (spRespawn dt w h st sh).asteroids = st.asteroids ∧
        (spRespawn dt w h st sh).levelTransitionMs = st.levelTransitionMs) ∧
      (spRespawn dt w h st sh).ship.lives = sh.lives ∧
      (spRespawn dt w h st sh).ship.size = sh.size := by
  simp only [spRespawn]
  split
  · split <;> exact ⟨⟨rfl, rfl, rfl⟩, rfl, rfl⟩
  · exact ⟨⟨rfl, rfl, rfl⟩, rfl, rfl⟩

theorem spCollide_proj (dt w h : ℚ) (ρ : Rng) (k : ℕ) (st : GState)
    (sh : Ship) :
    (spCollide dt w h ρ k st sh).1.asteroids = st.asteroids ∧
      (spCollide dt w h ρ k st sh).1.levelTransitionMs =
        st.levelTransitionMs ∧
      (spCollide dt w h ρ k st sh).1.ship.x = sh.x ∧
      (spCollide dt w h ρ k st sh).1.ship.y = sh.y ∧
      (spCollide dt w h ρ k st sh).1.ship.size = sh.size := by
  simp only [spCollide]
  split
  · split <;> exact ⟨rfl, rfl, rfl, rfl, rfl⟩
  · exact ⟨rfl, rfl, rfl, rfl, rfl⟩

theorem spShipPhase_proj (dt w h : ℚ) (ρ : Rng) (k : ℕ) (st : GState) :
    (spShipPhase dt w h ρ k st).1.asteroids = st.asteroids ∧
      (spShipPhase dt w h ρ k st).1.levelTransitionMs =
        st.levelTransitionMs ∧
      (spShipPhase dt w h ρ k st).1.ship.size = st.ship.size := by
  simp only [spShipPhase]
  obtain ⟨-, -, -, -, -, hsz, -, -, -, -, -⟩ :=
    tickInvincible_proj dt st.ship
  split
  · obtain ⟨⟨-, ha, hlt⟩, -, hsz2⟩ :=
      spRespawn_proj dt w h st (tickInvincible dt st.ship)
    exact ⟨ha, hlt, hsz2.trans hsz⟩
  · split
    · obtain ⟨ha, hlt, -, -, hsz2⟩ :=
        spCollide_proj dt w h ρ k st (tickInvincible dt st.ship)
      exact ⟨ha, hlt, hsz2.trans hsz⟩
    · exact ⟨rfl, rfl, hsz⟩

theorem update_playing (sz : ShipSizes) (ρ : Rng) (inp : Input)
    (ex dt w h : ℚ) (st : GState) (hmode : st.mode = GameMode.playing)
    (hlt : st.levelTransitionMs ≤ 0) :
    update sz ρ inp ex dt w h st = spPlayingTick ρ inp.p1 ex dt w h st := by
  unfold update
  rw [if_neg (by rw [hmode]; intro hcon; cases hcon),
    if_neg (by rw [hmode]; intro hcon; exact hcon rfl),
    if_neg (not_lt.mpr hlt)]


theorem spPassStage_proj (ρ : Rng) (pad : Pad) (dt w h : ℚ) (st : GState) :
    (spPassStage ρ pad dt w h st).1.ship.x =
        (spFire pad dt w h (spMoveShip pad dt w h st.ship)).x ∧
      (spPassStage ρ pad dt w h st).1.ship.y =
        (spFire pad dt w h (spMoveShip pad dt w h st.ship)).y ∧
      (spPassStage ρ pad dt w h st).1.ship.respawnMs =
        (spFire pad dt w h (spMoveShip pad dt w h st.ship)).respawnMs ∧
      (spPassStage ρ pad dt w h st).1.ship.size =
        (spFire pad dt w h (spMoveShip pad dt w h st.ship)).size ∧
      (spPassStage ρ pad dt w h st).1.ship.lives =
        (spFire pad dt w h (spMoveShip pad dt w h st.ship)).lives ∧
      (spPassStage ρ pad dt w h st).1.ship.invincibleMs =
        (spFire pad dt w h (spMoveShip pad dt w h st.ship)).invincibleMs ∧
      (spPassStage ρ pad dt w h st).1.mode = st.mode ∧
      (spPassStage ρ pad dt w h st).1.levelTransitionMs =
        st.levelTransitionMs :=
  ⟨rfl, rfl, rfl, rfl, rfl, rfl, rfl, rfl⟩

theorem spShipPhase_pos_xy (dt w h : ℚ) (ρ : Rng) (k : ℕ) (st : GState)
    (hrs : st.ship.respawnMs ≤ 0) :
    (spShipPhase dt w h ρ k st).1.ship.x = st.ship.x ∧
      (spShipPhase dt w h ρ k st).1.ship.y = st.ship.y := by
  simp only [spShipPhase]
  obtain ⟨hx, hy, -, -, hrsp, -, -, -, -, -, -⟩ :=
    tickInvincible_proj dt st.ship
  rw [if_neg (by rw [hrsp]; exact not_lt.mpr hrs)]
  split
  · obtain ⟨-, -, hcx, hcy, -⟩ :=
      spCollide_proj dt w h ρ k st (tickInvincible dt st.ship)
    exact ⟨hcx.trans hx, hcy.trans hy⟩
  · exact ⟨hx, hy⟩


theorem spFinishStage_proj (ex dt w h : ℚ) (st : GState) :
    (spFinishStage ex dt w h st).ship = st.ship ∧
      (spFinishStage ex dt w h st).mode = st.mode ∧
      (spFinishStage ex dt w h st).asteroids = st.asteroids ∧
      (spFinishStage ex dt w h st).levelTransitionMs =
        st.levelTransitionMs :=
  ⟨rfl, rfl, rfl, rfl⟩

theorem spLevelClear_ship (s : GState) : (spLevelClear s).ship = s.ship := by
  simp only [spLevelClear]
  split <;> rfl

theorem spLevelClear_asteroids (s : GState) :
    (spLevelClear s).asteroids = s.asteroids := by
  simp only [spLevelClear]
  split <;> rfl

theorem spLevelClear_mode (s : GState) : (spLevelClear s).mode = s.mode := by
  simp only [spLevelClear]
  split <;> rfl

theorem spPlayingTick_ship_xy (ρ : Rng) (pad : Pad) (ex dt w h : ℚ)
    (st : GState) (hrs : st.ship.respawnMs ≤ 0) :
    (spPlayingTick ρ pad ex dt w h st).ship.x =
        wrapWithMargin (st.ship.x + st.ship.dx) w (st.ship.size / 2) ∧
      (spPlayingTick ρ pad ex dt w h st).ship.y =
        wrapWithMargin (st.ship.y + st.ship.dy) h (st.ship.size / 2) := by
  obtain ⟨hmx, hmy⟩ := spMoveShip_pos pad dt w h st.ship hrs
  obtain ⟨hmrs, -, -, -, -, -, -⟩ := spMoveShip_proj pad dt w h st.ship
  obtain ⟨hfx, hfy, -, -, hfrs, -, -, -, -, -, -⟩ :=
    spFire_proj pad dt w h (spMoveShip pad dt w h st.ship)
  obtain ⟨hpx, hpy, hprs, -, -, -, -, -⟩ :=
    spPassStage_proj ρ pad dt w h st
  have hrs2 :
      (spLevelClear (spPassStage ρ pad dt w h st).1).ship.respawnMs ≤ 0 := by
    rw [spLevelClear_ship, hprs, hfrs, hmrs]
    exact hrs
  obtain ⟨hx2, hy2⟩ := spShipPhase_pos_xy dt w h ρ
    (spPassStage ρ pad dt w h st).2
    (spLevelClear (spPassStage ρ pad dt w h st).1) hrs2
  unfold spPlayingTick
  rw [(spFinishStage_proj ex dt w h _).1, hx2, hy2, spLevelClear_ship,
    hpx, hpy, hfx, hfy, hmx, hmy]
  exact ⟨rfl, rfl⟩

/-- C10: in a single-player gameplay tick the ship's position advances by
exactly its velocity vector (wrapped), with no `dt` factor, and every
Versus ship fragment's per-tick integration (`src/main.ts` lines
171–176) is the same `dt`-free `s.x + s.dx` form — the ship right-hand
sides below do not mention `dt` — whereas bullets, asteroids and sparks
advance by velocity times `dt`; a ship's per-tick displacement therefore
depends on the tick rate rather than elapsed time. -/
theorem ship_moves_per_tick_not_per_ms (sz : ShipSizes) (ρ : Rng)
    (inp : Input) (ex dt w h : ℚ) (st : GState)
    (hmode : st.mode = GameMode.playing) (hlt : st.levelTransitionMs ≤ 0)
    (hrs : st.ship.respawnMs ≤ 0) :
    ((update sz ρ inp ex dt w h st).ship.x =
        wrapWithMargin (st.ship.x + st.ship.dx) w (st.ship.size / 2) ∧
      (update sz ρ inp ex dt w h st).ship.y =
        wrapWithMargin (st.ship.y + st.ship.dy) h (st.ship.size / 2)) ∧
      (∀ p : Player,
        (vsPlayerIntegrate dt w h p).ships.map (fun s => (s.x, s.y)) =
          p.ships.map fun s =>
            (wrapWithMargin (s.x + s.dx) w (s.size / 2),
              wrapWithMargin (s.y + s.dy) h (s.size / 2))) ∧
      (∀ b : Bullet, b.ttlMs - dt > 0 →
        (spMoveBullets dt w h [b]).map (fun bb => (bb.x, bb.y)) =
          [(wrapWithMargin (b.x + b.dx * dt) w 0,
            wrapWithMargin (b.y + b.dy * dt) h 0)]) ∧
      (∀ a : Asteroid,
        (moveAsteroid dt w h a).x = wrapWithMargin (a.x + a.dx * dt) w a.size ∧
          (moveAsteroid dt w h a).y =
            wrapWithMargin (a.y + a.dy * dt) h a.size) ∧
      (∀ e : Spark, e.lifeMs - dt > 0 →
        (tickExplosions [e] dt w h).map (fun ee => (ee.x, ee.y)) =
          [(wrapWithMargin (e.x + e.dx * dt) w 0,
            wrapWithMargin (e.y + e.dy * dt) h 0)]) := by
  refine ⟨?_, ?_, ?_, fun a => ⟨rfl, rfl⟩, ?_⟩
  · rw [update_playing sz ρ inp ex dt w h st hmode hlt]
    exact spPlayingTick_ship_xy ρ inp.p1 ex dt w h st hrs
  · intro p
    unfold vsPlayerIntegrate
    dsimp only
    rw [List.map_map]
    congr 1
    funext s
    dsimp only [Function.comp]
    split <;> rfl
  · intro b hb
    simp only [spMoveBullets, List.map_cons, List.map_nil, List.filter]
    rw [decide_eq_true (show ({ b with
        x := wrapWithMargin (b.x + b.dx * dt) w 0
        y := wrapWithMargin (b.y + b.dy * dt) h 0
        ttlMs := b.ttlMs - dt } : Bullet).ttlMs > 0 from hb)]
    rfl
  · intro e he
    simp only [tickExplosions, List.filterMap]
    rw [if_neg (not_le.mpr he)]
    rfl

def padIdle : Pad :=
  { boostMag := 0, dirX := 1, dirY := 0, shooting := false,
    justPressedSouth := false }

def inputIdle : Input :=
  { playerCount := 1, anySouthJustPressed := false, p1 := padIdle,
    p2 := padIdle }

def shipC10 : Ship :=
  { x := 50, y := 50, dx := 1, dy := 0, dirX := 1, dirY := 0, size := 2,
    isBoosting := false, fireCooldownMs := 0, invincibleMs := 0,
    respawnMs := 0, lives := 5, score := 0, bullets := [] }

def gsC10 : GState :=
  { mode := GameMode.playing, level := 1, levelTransitionMs := 0,
    screenShakeAmount := 0, menuAnimationMs := 0, ship := shipC10,
    asteroids := [], explosions := [], players := [],
    baseAsteroidSizes := [7] }

def szC : ShipSizes := { large := 3, med := 2, small := 1 }

theorem ship_moves_per_tick_not_per_ms_witness :
    gsC10.mode = GameMode.playing ∧ gsC10.levelTransitionMs ≤ 0 ∧
      gsC10.ship.respawnMs ≤ 0 ∧
      (((update szC constRng inputIdle 1 2 100 100 gsC10).ship.x =
          wrapWithMargin (gsC10.ship.x + gsC10.ship.dx) 100
            (gsC10.ship.size / 2) ∧
        (update szC constRng inputIdle 1 2 100 100 gsC10).ship.y =
          wrapWithMargin (gsC10.ship.y + gsC10.ship.dy) 100
            (gsC10.ship.size / 2)) ∧
        (∀ p : Player,
          (vsPlayerIntegrate 2 100 100 p).ships.map (fun s => (s.x, s.y)) =
            p.ships.map fun s =>
              (wrapWithMargin (s.x + s.dx) 100 (s.size / 2),
                wrapWithMargin (s.y + s.dy) 100 (s.size / 2))) ∧
        (∀ b : Bullet, b.ttlMs - 2 > 0 →
          (spMoveBullets 2 100 100 [b]).map (fun bb => (bb.x, bb.y)) =
            [(wrapWithMargin (b.x + b.dx * 2) 100 0,
              wrapWithMargin (b.y + b.dy * 2) 100 0)]) ∧
        (∀ a : Asteroid,
          (moveAsteroid 2 100 100 a).x =
              wrapWithMargin (a.x + a.dx * 2) 100 a.size ∧
            (moveAsteroid 2 100 100 a).y =
              wrapWithMargin (a.y + a.dy * 2) 100 a.size) ∧
        (∀ e : Spark, e.lifeMs - 2 > 0 →
          (tickExplosions [e] 2 100 100).map (fun ee => (ee.x, ee.y)) =
            [(wrapWithMargin (e.x + e.dx * 2) 100 0,
              wrapWithMargin (e.y + e.dy * 2) 100 0)])) :=
  ⟨rfl, by norm_num [gsC10], by norm_num [gsC10, shipC10],
    ship_moves_per_tick_not_per_ms szC constRng inputIdle 1 2 100 100 gsC10
      rfl (by norm_num [gsC10]) (by norm_num [gsC10, shipC10])⟩

/-- C4 amended: for EVERY tick in which a ship fires (cooldown expired,
trigger held, not respawning), the push is unconditional: the new bullet
is appended as the last live bullet, spawned at the ship's nose
(position plus ship size along the facing), but its velocity is the
fixed muzzle speed `min(w,h)/1000` along the facing plus the ship's
velocity DIVIDED BY `dt` — not plus the ship's velocity; at the cap only
the OLDEST bullet is force-expired, the new bullet is unaffected, and
below the cap the bullet list is exactly the old list plus the new
bullet; the Versus firing path (one bullet per surviving fragment) has
the same `s.dx / dt` form. -/
theorem bullet_spawn_spec (pad : Pad) (dt w h : ℚ) (sh : Ship) (p : Player)
    (hfire : sh.respawnMs ≤ 0 ∧ max 0 (sh.fireCooldownMs - dt) ≤ 0 ∧
      pad.shooting = true)
    (hvfire : p.ships.length > 0 ∧ max 0 (p.fireCooldownMs - dt) ≤ 0 ∧
      pad.shooting = true) :
    ((spFire pad dt w h sh).bullets.getLast? = some
        { x := sh.x + sh.dirX * sh.size
          y := sh.y + sh.dirY * sh.size
          dx := sh.dirX * (min w h / 1000) + sh.dx / dt
          dy := sh.dirY * (min w h / 1000) + sh.dy / dt
          ttlMs := 750 } ∧
      (spFire pad dt w h sh).bullets.length = sh.bullets.length + 1 ∧
      (sh.bullets.length < maxActiveBullets →
        (spFire pad dt w h sh).bullets = sh.bullets ++
          [{ x := sh.x + sh.dirX * sh.size
             y := sh.y + sh.dirY * sh.size
             dx := sh.dirX * (min w h / 1000) + sh.dx / dt
             dy := sh.dirY * (min w h / 1000) + sh.dy / dt
             ttlMs := 750 }])) ∧
      (vsPlayerFire pad dt w h p).bullets = p.bullets ++
        p.ships.map fun s =>
          { x := s.x + p.dirX * s.size
            y := s.y + p.dirY * s.size
            dx := p.dirX * (min w h / 1000) + s.dx / dt
            dy := p.dirY * (min w h / 1000) + s.dy / dt
            ttlMs := 750
            color := p.color } := by
  constructor
  · simp only [spFire]
    rw [if_pos hfire]
    dsimp only
    split
    · next hc =>
      have hne : sh.bullets ≠ [] := by
        intro h0
        rw [h0] at hc
        simp [maxActiveBullets] at hc
      obtain ⟨b0, tl, hsb⟩ : ∃ b0 tl, sh.bullets = b0 :: tl := by
        cases hx : sh.bullets with
        | nil => exact absurd hx hne
        | cons a b => exact ⟨a, b, rfl⟩
      rw [hsb] at hc ⊢
      rw [List.cons_append] at hc ⊢
      dsimp only
      refine ⟨?_, ?_, ?_⟩
      · rw [show ({ b0 with ttlMs := 0 } : Bullet) ::
            (tl ++ [{ x := sh.x + sh.dirX * sh.size
                      y := sh.y + sh.dirY * sh.size
                      dx := sh.dirX * (min w h / 1000) + sh.dx / dt
                      dy := sh.dirY * (min w h / 1000) + sh.dy / dt
                      ttlMs := 750 }]) =
            (({ b0 with ttlMs := 0 } : Bullet) :: tl) ++
              [{ x := sh.x + sh.dirX * sh.size
                 y := sh.y + sh.dirY * sh.size
                 dx := sh.dirX * (min w h / 1000) + sh.dx / dt
                 dy := sh.dirY * (min w h / 1000) + sh.dy / dt
                 ttlMs := 750 }] from (List.cons_append _ _ _).symm]
        exact List.getLast?_concat _
      · simp only [List.length_cons, List.length_append,
          List.length_singleton, List.length_nil]
      · intro hlt
        exfalso
        simp only [List.length_cons, List.length_append,
          List.length_singleton, List.length_nil,
          maxActiveBullets] at hc hlt
        omega
    · next hc =>
      exact ⟨List.getLast?_concat _,
        by simp only [List.length_append, List.length_singleton],
        fun hlt => rfl⟩
  · simp only [vsPlayerFire]
    rw [if_pos hvfire]

def padShoot : Pad :=
  { boostMag := 0, dirX := 1, dirY := 0, shooting := true,
    justPressedSouth := false }

def inputShoot : Input :=
  { playerCount := 1, anySouthJustPressed := false, p1 := padShoot,
    p2 := padShoot }

def playerC4 : Player :=
  { color := Color.blue, score := 0, dirX := 1, dirY := 0,
    isBoosting := false, fireCooldownMs := 0,
    ships := [{ x := 50, y := 50, dx := 1, dy := 0, size := 3,
                invincibleMs := 0 }],
    bullets := [] }

theorem bullet_spawn_spec_witness :
    (shipC10.respawnMs ≤ 0 ∧ max 0 (shipC10.fireCooldownMs - 2) ≤ 0 ∧
        padShoot.shooting = true) ∧
      (playerC4.ships.length > 0 ∧ max 0 (playerC4.fireCooldownMs - 2) ≤ 0 ∧
        padShoot.shooting = true) ∧
      (((spFire padShoot 2 100 100 shipC10).bullets.getLast? = some
          { x := shipC10.x + shipC10.dirX * shipC10.size
            y := shipC10.y + shipC10.dirY * shipC10.size
            dx := shipC10.dirX * (min 100 100 / 1000) + shipC10.dx / 2
            dy := shipC10.dirY * (min 100 100 / 1000) + shipC10.dy / 2
            ttlMs := 750 } ∧
        (spFire padShoot 2 100 100 shipC10).bullets.length =
          shipC10.bullets.length + 1 ∧
        (shipC10.bullets.length < maxActiveBullets →
          (spFire padShoot 2 100 100 shipC10).bullets =
            shipC10.bullets ++
              [{ x := shipC10.x + shipC10.dirX * shipC10.size
                 y := shipC10.y + shipC10.dirY * shipC10.size
                 dx := shipC10.dirX * (min 100 100 / 1000) + shipC10.dx / 2
                 dy := shipC10.dirY * (min 100 100 / 1000) + shipC10.dy / 2
                 ttlMs := 750 }])) ∧
        (vsPlayerFire padShoot 2 100 100 playerC4).bullets =
          playerC4.bullets ++ playerC4.ships.map fun s =>
            { x := s.x + playerC4.dirX * s.size
              y := s.y + playerC4.dirY * s.size
              dx := playerC4.dirX * (min 100 100 / 1000) + s.dx / 2
              dy := playerC4.dirY * (min 100 100 / 1000) + s.dy / 2
              ttlMs := 750
              color := playerC4.color }) :=
  ⟨⟨by norm_num [shipC10], by norm_num [shipC10], rfl⟩,
    ⟨by norm_num [playerC4], by norm_num [playerC4], rfl⟩,
    bullet_spawn_spec padShoot 2 100 100 shipC10 playerC4
      ⟨by norm_num [shipC10], by norm_num [shipC10], rfl⟩
      ⟨by norm_num [playerC4], by norm_num [playerC4], rfl⟩⟩

theorem gm_playing_ne_versus : ¬ (GameMode.playing = GameMode.versus) := by
  simp

theorem gm_menu_ne_versus : ¬ (GameMode.menu = GameMode.versus) := by
  simp

theorem gm_versus_ne_menu : ¬ (GameMode.versus = GameMode.menu) := by
  simp

set_option maxHeartbeats 2000000 in
/-- C4 counterexample: single-player ship with velocity `dx = 1` fires at
tick duration `dt = 2` in a 100×100 world; the spawned bullet's `dx` is
`1 * 0.1 + 1 / 2 = 3/5` (muzzle speed plus ship velocity divided by
`dt`), not the claimed `1 * 0.1 + 1 = 11/10` (muzzle speed plus ship
velocity). -/
theorem bullet_velocity_counterexample :
    (update szC constRng inputShoot 1 2 100 100 gsC10).ship.bullets.map
        (fun b => b.dx) = [3/5] ∧
      gsC10.ship.dirX * (min 100 100 / 1000) + gsC10.ship.dx = 11/10 ∧
      ¬ ((3/5 : ℚ) = 11/10) := by
  refine ⟨?_, by norm_num [gsC10, shipC10], by norm_num⟩
  norm_num [update, spPlayingTick, spPassStage, spMoveShip, spFire,
    spMoveBullets, spDecay, spProcessBullet, findHit, rebuildAsteroids,
    spLevelClear, spShipPhase, tickInvincible, spCollide, spShipHitsSome,
    spFinishStage, tickExplosions, easeCameraToZero, lerp,
    maxActiveBullets, gsC10, shipC10, padShoot, inputShoot, constRng,
    wrapWithMargin_of_mem, List.filter, gm_playing_ne_versus]

theorem spPass_foldl_empty (w h : ℚ) (ρ : Rng) (bullets : List Bullet)
    (st : HitPass) (ha : st.asteroids = []) (ht : st.toRemove = [])
    (hc : st.children = []) :
    (bullets.foldl (spProcessBullet w h ρ) st).asteroids = [] ∧
      (bullets.foldl (spProcessBullet w h ρ) st).toRemove = [] ∧
      (bullets.foldl (spProcessBullet w h ρ) st).children = [] := by
  induction bullets generalizing st with
  | nil => exact ⟨ha, ht, hc⟩
  | cons b rest ih =>
    rw [List.foldl_cons]
    have hx : spProcessBullet w h ρ st b =
        { st with keptBullets := st.keptBullets ++ [b] } := by
      simp only [spProcessBullet, ha, findHit]
    rw [hx]
    exact ih _ ha ht hc

theorem update_sp_transition_freeze (sz : ShipSizes) (ρ : Rng) (inp : Input)
    (ex dt w h : ℚ) (st : GState) (hmode : st.mode = GameMode.playing)
    (hdt : 0 < dt) (hlt : dt < st.levelTransitionMs) :
    update sz ρ inp ex dt w h st =
      { st with levelTransitionMs := st.levelTransitionMs - dt } := by
  unfold update
  rw [if_neg (by rw [hmode]; exact gm_playing_ne_versus),
    if_neg (by rw [hmode]; intro hcon; exact hcon rfl),
    if_pos (by linarith)]
  have hmax : max 0 (st.levelTransitionMs - dt) = st.levelTransitionMs - dt :=
    max_eq_right (by linarith)
  rw [hmax, if_neg (by intro h0; linarith)]

theorem rebuild_of_foldl_empty (w h : ℚ) (ρ : Rng) (bullets : List Bullet)
    (init : HitPass) (h1 : init.asteroids = []) (h2 : init.toRemove = [])
    (h3 : init.children = []) :
    rebuildAsteroids (bullets.foldl (spProcessBullet w h ρ) init).asteroids
      (bullets.foldl (spProcessBullet w h ρ) init).toRemove
      (bullets.foldl (spProcessBullet w h ρ) init).children = [] := by
  obtain ⟨g1, g2, g3⟩ := spPass_foldl_empty w h ρ bullets init h1 h2 h3
  rw [rebuildAsteroids, g1, g2, g3]
  rfl

theorem spPassStage_asteroids_empty (ρ : Rng) (pad : Pad) (dt w h : ℚ)
    (st : GState) (ha : st.asteroids = []) :
    (spPassStage ρ pad dt w h st).1.asteroids = [] := by
  exact rebuild_of_foldl_empty w h ρ _ _ (by rw [ha]; rfl) rfl rfl

theorem update_sp_transition_start (sz : ShipSizes) (ρ : Rng) (inp : Input)
    (ex dt w h : ℚ) (st : GState) (hmode : st.mode = GameMode.playing)
    (hlt : st.levelTransitionMs ≤ 0) (ha : st.asteroids = []) :
    (update sz ρ inp ex dt w h st).levelTransitionMs = 2000 := by
  rw [update_playing sz ρ inp ex dt w h st hmode hlt]
  unfold spPlayingTick
  rw [(spFinishStage_proj ex dt w h _).2.2.2,
    (spShipPhase_proj dt w h ρ _ _).2.1]
  have hpa := spPassStage_asteroids_empty ρ inp.p1 dt w h st ha
  have hplt : (spPassStage ρ inp.p1 dt w h st).1.levelTransitionMs =
      st.levelTransitionMs := rfl
  show (spLevelClear (spPassStage ρ inp.p1 dt w h st).1).levelTransitionMs =
    2000
  rw [spLevelClear, if_pos ⟨by rw [hpa]; rfl, by rw [hplt]; exact hlt⟩]

theorem vsAstShipsLoop_no_asts (sz : ShipSizes) (ρ : Rng) (w h : ℚ)
    (fuel si : ℕ) (p : Player) (shake : ℚ) (expl : List Spark) (k : ℕ) :
    vsAstShipsLoop sz ρ w h [] fuel si p shake expl k =
      (p, shake, expl, k) := by
  induction fuel generalizing si with
  | zero => rfl
  | succ n ih =>
    rw [vsAstShipsLoop]
    cases hg : p.ships.get? si with
    | none => dsimp only
    | some s =>
      dsimp only
      split
      · exact ih (si + 1)
      · rw [if_neg (by simp [List.any_nil])]
        exact ih (si + 1)

theorem vsAstShipsLoop_all_inv (sz : ShipSizes) (ρ : Rng) (w h : ℚ)
    (asts : List Asteroid) (fuel si : ℕ) (p : Player) (shake : ℚ)
    (expl : List Spark) (k : ℕ)
    (hinv : ∀ s ∈ p.ships, s.invincibleMs > 0) :
    vsAstShipsLoop sz ρ w h asts fuel si p shake expl k =
      (p, shake, expl, k) := by
  induction fuel generalizing si with
  | zero => rfl
  | succ n ih =>
    rw [vsAstShipsLoop]
    cases hg : p.ships.get? si with
    | none => dsimp only
    | some s =>
      dsimp only
      rw [if_pos (hinv s (List.get?_mem hg))]
      exact ih (si + 1)

theorem vsShipShipLoop_inv_left (sz : ShipSizes) (ρ : Rng) (w h : ℚ)
    (fuel a b : ℕ) (A B : Player) (shake : ℚ) (expl : List Spark) (k : ℕ)
    (hinv : ∀ s ∈ A.ships, s.invincibleMs > 0) :
    vsShipShipLoop sz ρ w h fuel a b A B shake expl k =
      (A, B, shake, expl, k) := by
  induction fuel generalizing a b with
  | zero => rfl
  | succ n ih =>
    rw [vsShipShipLoop]
    cases hga : A.ships.get? a with
    | none => dsimp only
    | some sa =>
      cases hgb : B.ships.get? b with
      | none =>
        dsimp only
        exact ih (a + 1) 0
      | some sb =>
        dsimp only
        rw [if_pos (Or.inl (hinv sa (List.get?_mem hga)))]
        exact ih a (b + 1)

def ast20 : Asteroid :=
  { x := 20, y := 20, dx := 1, dy := 0, angle := 0, dangle := 0,
    variant := 0, size := 7, timeUntilDead := none }

def gsC7 : GState :=
  { mode := GameMode.playing, level := 1, levelTransitionMs := 1000,
    screenShakeAmount := 0, menuAnimationMs := 0, ship := shipC10,
    asteroids := [ast20], explosions := [], players := [],
    baseAsteroidSizes := [7] }

def playerC7 : Player :=
  { color := Color.blue, score := 0, dirX := 1, dirY := 0,
    isBoosting := false, fireCooldownMs := 200,
    ships := [{ x := 50, y := 50, dx := 1, dy := 0, size := 3,
                invincibleMs := 0 }],
    bullets := [] }

def gsC7v : GState :=
  { mode := GameMode.versus, level := 1, levelTransitionMs := 1000,
    screenShakeAmount := 0, menuAnimationMs := 0, ship := shipC10,
    asteroids := [], explosions := [], players := [playerC7],
    baseAsteroidSizes := [7] }

def playerC7mid : Player :=
  { color := Color.blue, score := 0, dirX := 1, dirY := 0,
    isBoosting := false, fireCooldownMs := 196,
    ships := [{ x := 51, y := 50, dx := 1, dy := 0, size := 3,
                invincibleMs := 0 }],
    bullets := [] }

def gsC7vMid : GState :=
  { mode := GameMode.versus, level := 1, levelTransitionMs := 1000,
    screenShakeAmount := 0, menuAnimationMs := 0, ship := shipC10,
    asteroids := [], explosions := [], players := [playerC7mid],
    baseAsteroidSizes := [7] }

def gsC7vEnd : GState :=
  { mode := GameMode.versus, level := 1, levelTransitionMs := 996,
    screenShakeAmount := 0, menuAnimationMs := 0, ship := shipC10,
    asteroids := [], explosions := [], players := [playerC7mid],
    baseAsteroidSizes := [7] }

def shipC3 : Ship :=
  { x := 50, y := 50, dx := 1, dy := 0, dirX := 1, dirY := 0, size := 2,
    isBoosting := false, fireCooldownMs := 0, invincibleMs := 0,
    respawnMs := 2, lives := 5, score := 0, bullets := [] }

def gsC3 : GState :=
  { mode := GameMode.playing, level := 1, levelTransitionMs := 0,
    screenShakeAmount := 0, menuAnimationMs := 0, ship := shipC3,
    asteroids := [], explosions := [], players := [],
    baseAsteroidSizes := [7] }

def playerC8a : Player :=
  { color := Color.blue, score := 0, dirX := 1, dirY := 0,
    isBoosting := false, fireCooldownMs := 0,
    ships := [{ x := 10, y := 10, dx := 0, dy := 0, size := 3,
                invincibleMs := 0 }],
    bullets := [] }

def playerC8d : Player :=
  { color := Color.red, score := 0, dirX := 1, dirY := 0,
    isBoosting := false, fireCooldownMs := 0, ships := [], bullets := [] }

def gsC8 : GState :=
  { mode := GameMode.versus, level := 0, levelTransitionMs := 4,
    screenShakeAmount := 0, menuAnimationMs := 0, ship := shipC10,
    asteroids := [], explosions := [], players := [playerC8a, playerC8d],
    baseAsteroidSizes := [] }

set_option maxHeartbeats 2000000 in
theorem c7_versus_ship_moves :
    (update szC constRng inputIdle 1 4 100 100 gsC7v).players.map
        (fun p => p.ships.map fun s => s.x) = [[51]] := by
  have hwx : wrapWithMargin (51 : ℚ) 100 (3 / 2) = 51 := by
    rw [wrapWithMargin_of_mem] <;> norm_num
  have hwy : wrapWithMargin (50 : ℚ) 100 (3 / 2) = 50 := by
    rw [wrapWithMargin_of_mem] <;> norm_num
  have hA : vsMoveStage 1 4 100 100 gsC7v = gsC7v := by
    norm_num [vsMoveStage, gsC7v, tickExplosions, easeCameraToZero, lerp]
  have hB : vsPlayersStage inputIdle 4 100 100 gsC7v = gsC7vMid := by
    norm_num [vsPlayersStage, vsPlayerInputPhase, vsPlayerBoost,
      vsPlayerFire, vsPlayerAccel, vsPlayerIntegrate, vsPlayerBulletsStep,
      List.filter, gsC7v, gsC7vMid, playerC7, playerC7mid, padIdle,
      inputIdle, hwx, hwy]
  have hP : vsPassStage constRng 100 100 gsC7vMid = (gsC7vMid, 0) := by
    norm_num [vsPassStage, vsProcessPlayerBullets, rebuildAsteroids,
      gsC7vMid, playerC7mid]
  have hL : vsLevelPhase szC constRng 0 4 100 100 gsC7vMid =
      (gsC7vEnd, 0) := by
    norm_num [vsLevelPhase, vsLevelTrigger, vsLevelExpire, gsC7vMid,
      gsC7vEnd, playerC7mid]
  have hS : vsShipsStage szC constRng 0 100 100 gsC7vEnd = gsC7vEnd := by
    norm_num [vsShipsStage, vsBulletsVsShips, vsBulletsVsShipsPlayer,
      vsBulletVsShipsStep, vsAstShips, vsAstShipsLoop_no_asts,
      vsShipShip, List.range_succ, gsC7vEnd, playerC7mid]
  have hE : vsEndCheck gsC7vEnd = gsC7vEnd := by
    norm_num [vsEndCheck, gsC7vEnd]
  have hdisp : update szC constRng inputIdle 1 4 100 100 gsC7v =
      updateVersus szC constRng inputIdle 1 4 100 100 gsC7v := by
    unfold update
    rw [if_pos (show gsC7v.mode = GameMode.versus from rfl)]
  rw [hdisp]
  unfold updateVersus
  rw [hA, hB, hP]
  show (vsEndCheck (vsShipsStage szC constRng
    (vsLevelPhase szC constRng 0 4 100 100 gsC7vMid).2 100 100
    (vsLevelPhase szC constRng 0 4 100 100 gsC7vMid).1)).players.map _ = _
  rw [hL]
  show (vsEndCheck (vsShipsStage szC constRng 0 100 100
    gsC7vEnd)).players.map _ = _
  rw [hS, hE]
  norm_num [gsC7vEnd, playerC7mid]

/-- C7 counterexample: in Playing mode with `levelTransitionMs = 1000 > 0`
and an asteroid with velocity `dx = 1`, a `dt = 4` tick leaves the
asteroid at `x = 20` instead of animating it to `20 + 1*4 = 24`: during a
single-player level transition asteroids (and explosions and camera) do
NOT continue to animate — the tick returns after decrementing the
countdown. -/
theorem levelTransition_counterexample :
    gsC7.levelTransitionMs > 0 ∧
      (update szC constRng inputIdle 1 4 100 100 gsC7).asteroids.map
          (fun a => a.x) = [20] ∧
      gsC7.asteroids.map (fun a => a.x + a.dx * 4) = [24] ∧
      ¬ ((update szC constRng inputIdle 1 4 100 100 gsC7).asteroids.map
            (fun a => a.x) =
          gsC7.asteroids.map (fun a => a.x + a.dx * 4)) := by
  have h := update_sp_transition_freeze szC constRng inputIdle 1 4 100 100
    gsC7 rfl (by norm_num) (by norm_num [gsC7])
  rw [h]
  refine ⟨by norm_num [gsC7], ?_, ?_, ?_⟩ <;> norm_num [gsC7, ast20]

theorem vsLevelExpire_noexpire (sz : ShipSizes) (ρ : Rng) (k : ℕ)
    (dt w h : ℚ) (X : GState) (hdt : 0 ≤ dt)
    (h2 : dt < X.levelTransitionMs) :
    vsLevelExpire sz ρ k dt w h X =
      ({ X with levelTransitionMs := X.levelTransitionMs - dt }, k) := by
  unfold vsLevelExpire
  rw [if_pos (show X.levelTransitionMs > 0 by linarith),
    if_neg (by
      rw [max_eq_right (by linarith : (0 : ℚ) ≤ X.levelTransitionMs - dt)]
      intro hc
      linarith),
    max_eq_right (by linarith : (0 : ℚ) ≤ X.levelTransitionMs - dt)]

theorem vsEndCheck_pos (X : GState) (h : 0 < X.levelTransitionMs) :
    vsEndCheck X = X := by
  unfold vsEndCheck
  rw [if_neg]
  intro hc
  exact absurd hc.1 (not_le.mpr h)

set_option maxRecDepth 2000 in
set_option maxHeartbeats 1000000 in
theorem update_versus_countdown (sz : ShipSizes) (ρ : Rng) (inp : Input)
    (ex dt w h c : ℚ) (st : GState) (hmode : st.mode = GameMode.versus)
    (hdt : 0 ≤ dt) (h1 : dt < st.levelTransitionMs) (h2 : dt < c) :
    update sz ρ inp ex dt w h { st with levelTransitionMs := c } =
      { update sz ρ inp ex dt w h st with levelTransitionMs := c - dt } := by
  have hd1 : update sz ρ inp ex dt w h { st with levelTransitionMs := c } =
      updateVersus sz ρ inp ex dt w h { st with levelTransitionMs := c } := by
    unfold update
    rw [if_pos (show ({ st with levelTransitionMs := c } : GState).mode =
      GameMode.versus from hmode)]
  have hd2 : update sz ρ inp ex dt w h st =
      updateVersus sz ρ inp ex dt w h st := by
    unfold update
    rw [if_pos hmode]
  rw [hd1, hd2]
  unfold updateVersus
  unfold vsLevelPhase
  have hS' : (vsPassStage ρ w h (vsPlayersStage inp dt w h
        (vsMoveStage ex dt w h { st with levelTransitionMs := c }))).1 =
      { (vsPassStage ρ w h (vsPlayersStage inp dt w h
          (vsMoveStage ex dt w h st))).1 with levelTransitionMs := c } := rfl
  have hK' : (vsPassStage ρ w h (vsPlayersStage inp dt w h
        (vsMoveStage ex dt w h { st with levelTransitionMs := c }))).2 =
      (vsPassStage ρ w h (vsPlayersStage inp dt w h
        (vsMoveStage ex dt w h st))).2 := rfl
  rw [hS', hK']
  have hT' : vsLevelTrigger
      { (vsPassStage ρ w h (vsPlayersStage inp dt w h
          (vsMoveStage ex dt w h st))).1 with levelTransitionMs := c } =
      { (vsPassStage ρ w h (vsPlayersStage inp dt w h
          (vsMoveStage ex dt w h st))).1 with levelTransitionMs := c } := by
    unfold vsLevelTrigger
    rw [if_neg]
    intro hcon
    have hcc : (c : ℚ) ≤ 0 := hcon.2
    linarith
  have hT : vsLevelTrigger (vsPassStage ρ w h (vsPlayersStage inp dt w h
        (vsMoveStage ex dt w h st))).1 =
      (vsPassStage ρ w h (vsPlayersStage inp dt w h
        (vsMoveStage ex dt w h st))).1 := by
    unfold vsLevelTrigger
    rw [if_neg]
    intro hcon
    have hcc : st.levelTransitionMs ≤ 0 := hcon.2
    linarith
  rw [hT', hT]
  have hexpA : vsLevelExpire sz ρ
      (vsPassStage ρ w h (vsPlayersStage inp dt w h
        (vsMoveStage ex dt w h st))).2 dt w h
      { (vsPassStage ρ w h (vsPlayersStage inp dt w h
          (vsMoveStage ex dt w h st))).1 with levelTransitionMs := c } =
      ({ (vsPassStage ρ w h (vsPlayersStage inp dt w h
          (vsMoveStage ex dt w h st))).1 with levelTransitionMs := c - dt },
        (vsPassStage ρ w h (vsPlayersStage inp dt w h
          (vsMoveStage ex dt w h st))).2) :=
    (vsLevelExpire_noexpire sz ρ _ dt w h _ hdt (by exact h2)).trans rfl
  have hexpB : vsLevelExpire sz ρ
      (vsPassStage ρ w h (vsPlayersStage inp dt w h
        (vsMoveStage ex dt w h st))).2 dt w h
      (vsPassStage ρ w h (vsPlayersStage inp dt w h
        (vsMoveStage ex dt w h st))).1 =
      ({ (vsPassStage ρ w h (vsPlayersStage inp dt w h
          (vsMoveStage ex dt w h st))).1 with
          levelTransitionMs := st.levelTransitionMs - dt },
        (vsPassStage ρ w h (vsPlayersStage inp dt w h
          (vsMoveStage ex dt w h st))).2) :=
    (vsLevelExpire_noexpire sz ρ _ dt w h _ hdt (by exact h1)).trans rfl
  rw [hexpA, hexpB]
  dsimp only
  have hcomm : ∀ (K : ℕ) (X : GState) (v : ℚ),
      vsShipsStage sz ρ K w h { X with levelTransitionMs := v } =
        { vsShipsStage sz ρ K w h X with levelTransitionMs := v } :=
    fun K X v => rfl
  generalize (vsPassStage ρ w h (vsPlayersStage inp dt w h
    (vsMoveStage ex dt w h st))).1 = S
  generalize (vsPassStage ρ w h (vsPlayersStage inp dt w h
    (vsMoveStage ex dt w h st))).2 = K
  rw [hcomm K S (c - dt), hcomm K S (st.levelTransitionMs - dt)]
  rw [vsEndCheck_pos _ (show (0 : ℚ) < c - dt by linarith),
    vsEndCheck_pos _
      (show (0 : ℚ) < st.levelTransitionMs - dt by linarith)]

/-- C7 amended: while `levelTransitionMs > 0` a Playing-mode tick only
decrements the countdown — ship, bullets, asteroids, explosions, camera
and score are all left untouched (a full freeze, not a
background-animated one); the countdown starts at a fixed 2000 ms when
the Playing field empties; and in Versus a pending, not-yet-expiring
countdown suspends NOTHING: the whole tick is independent of the
countdown's value — two Versus states that differ only in the (positive,
non-expiring) countdown produce identical ticks except for the countdown
field itself, so ships move, fire and collide exactly as with any other
pending countdown — and concretely ships keep moving while it runs. -/
theorem levelTransition_behavior :
    (∀ (sz : ShipSizes) (ρ : Rng) (inp : Input) (ex dt w h : ℚ)
        (st : GState), st.mode = GameMode.playing → 0 < dt →
        dt < st.levelTransitionMs →
        update sz ρ inp ex dt w h st =
          { st with levelTransitionMs := st.levelTransitionMs - dt }) ∧
      (∀ (sz : ShipSizes) (ρ : Rng) (inp : Input) (ex dt w h : ℚ)
        (st : GState), st.mode = GameMode.playing →
        st.levelTransitionMs ≤ 0 → st.asteroids = [] →
        (update sz ρ inp ex dt w h st).levelTransitionMs = 2000) ∧
      (∀ (sz : ShipSizes) (ρ : Rng) (inp : Input) (ex dt w h c : ℚ)
        (st : GState), st.mode = GameMode.versus → 0 ≤ dt →
        dt < st.levelTransitionMs → dt < c →
        update sz ρ inp ex dt w h { st with levelTransitionMs := c } =
          { update sz ρ inp ex dt w h st with
            levelTransitionMs := c - dt }) ∧
      ((update szC constRng inputIdle 1 4 100 100 gsC7v).players.map
          (fun p => p.ships.map fun s => s.x) = [[51]] ∧
        gsC7v.levelTransitionMs > 0 ∧
        gsC7v.players.map (fun p => p.ships.map fun s => s.x) = [[50]]) :=
  ⟨update_sp_transition_freeze, update_sp_transition_start,
    update_versus_countdown, c7_versus_ship_moves, by norm_num [gsC7v],
    by norm_num [gsC7v, playerC7]⟩

theorem levelTransition_behavior_witness :
    (update szC constRng inputIdle 1 4 100 100 gsC7 =
        { gsC7 with levelTransitionMs := gsC7.levelTransitionMs - 4 }) ∧
      (update szC constRng inputIdle 1 2 100 100 gsC10).levelTransitionMs =
        2000 ∧
      update szC constRng inputIdle 1 4 100 100
          { gsC7v with levelTransitionMs := 900 } =
        { update szC constRng inputIdle 1 4 100 100 gsC7v with
          levelTransitionMs := 900 - 4 } :=
  ⟨levelTransition_behavior.1 szC constRng inputIdle 1 4 100 100 gsC7 rfl
      (by norm_num) (by norm_num [gsC7]),
    levelTransition_behavior.2.1 szC constRng inputIdle 1 2 100 100 gsC10
      rfl (by norm_num [gsC10]) rfl,
    levelTransition_behavior.2.2.1 szC constRng inputIdle 1 4 100 100 900
      gsC7v rfl (by norm_num) (by norm_num [gsC7v]) (by norm_num)⟩

/-- What `tryPlace` guarantees about a successful placement: next-smaller
size, inherited velocity, grace window, a radial distance in the annulus
`[2·next, 4·next)` around the destroyed fragment, and no circle overlap
with any fragment present at placement time. -/
def GoodPlacement (nx bx bY bdx bdy : ℚ) (pool : List MpShip)
    (c : MpShip) : Prop :=
  c.size = nx ∧ c.dx = bdx ∧ c.dy = bdy ∧ c.invincibleMs = 2000 ∧
    (nx * 2) * (nx * 2) ≤ (c.x - bx) * (c.x - bx) + (c.y - bY) * (c.y - bY) ∧
    (c.x - bx) * (c.x - bx) + (c.y - bY) * (c.y - bY) < (nx * 4) * (nx * 4) ∧
    ∀ e ∈ pool,
      ¬ ((c.x - e.x) * (c.x - e.x) + (c.y - e.y) * (c.y - e.y) <
        (nx + e.size) * (nx + e.size))

theorem tryPlace_some (ρ : Rng) (hρ : ρ.Good) (next bx bY bdx bdy : ℚ)
    (hnx : 0 < next) (existing : List MpShip) :
    ∀ (att k : ℕ) (c : MpShip),
      (tryPlace ρ next bx bY bdx bdy existing att k).1 = some c →
      GoodPlacement next bx bY bdx bdy existing c := by
  intro att
  induction att with
  | zero =>
    intro k c hc
    simp only [tryPlace] at hc
    cases hc
  | succ n ih =>
    intro k c hc
    rw [tryPlace] at hc
    split at hc
    · exact ih _ c hc
    · next hov =>
      have hc2 := Option.some.inj hc
      obtain ⟨ht0, ht1, -⟩ := hρ k
      obtain ⟨-, -, hu⟩ := hρ (k + 1)
      set r := next * 2 + (ρ k).t * (next * 2 * 2 - next * 2) with hrdef
      have hr0 : next * 2 ≤ r := by rw [hrdef]; nlinarith
      have hr1 : r < next * 4 := by rw [hrdef]; nlinarith
      have hrpos : 0 < r := by nlinarith
      rw [← hc2]
      refine ⟨rfl, rfl, rfl, rfl, ?_, ?_, ?_⟩
      · show (next * 2) * (next * 2) ≤
          (bx + (ρ (k + 1)).ux * r - bx) * (bx + (ρ (k + 1)).ux * r - bx) +
            (bY + (ρ (k + 1)).uy * r - bY) * (bY + (ρ (k + 1)).uy * r - bY)
        have hkey : (bx + (ρ (k + 1)).ux * r - bx) *
              (bx + (ρ (k + 1)).ux * r - bx) +
            (bY + (ρ (k + 1)).uy * r - bY) *
              (bY + (ρ (k + 1)).uy * r - bY) = r * r := by
          have h2 : ((ρ (k + 1)).ux * r) ^ 2 + ((ρ (k + 1)).uy * r) ^ 2 =
              r ^ 2 := speedSq_eq _ _ _ hu
          nlinarith [h2]
        rw [hkey]
        nlinarith
      · show (bx + (ρ (k + 1)).ux * r - bx) * (bx + (ρ (k + 1)).ux * r - bx) +
            (bY + (ρ (k + 1)).uy * r - bY) * (bY + (ρ (k + 1)).uy * r - bY) <
          (next * 4) * (next * 4)
        have hkey : (bx + (ρ (k + 1)).ux * r - bx) *
              (bx + (ρ (k + 1)).ux * r - bx) +
            (bY + (ρ (k + 1)).uy * r - bY) *
              (bY + (ρ (k + 1)).uy * r - bY) = r * r := by
          have h2 : ((ρ (k + 1)).ux * r) ^ 2 + ((ρ (k + 1)).uy * r) ^ 2 =
              r ^ 2 := speedSq_eq _ _ _ hu
          nlinarith [h2]
        rw [hkey]
        nlinarith
      · intro e he
        simp only [List.any_eq_true, decide_eq_true_eq] at hov
        push_neg at hov
        have := hov e he
        intro hlt
        simp only at hlt
        linarith

/-- C9: destroying a Versus ship fragment at `index` either removes it
outright or replaces it in place by exactly two next-smaller fragments,
so the fragment count changes by exactly −1 or +1; a fragment whose size
is neither Large nor Med always simply vanishes; and when two children
are placed, each sits in the annulus with radii `[2·next, 4·next)`
around the destroyed fragment and circle-overlaps no sibling fragment
present at its placement time (the second child also checks the first). -/
theorem splitShipFragment_spec (sz : ShipSizes) (ρ : Rng) (hρ : ρ.Good)
    (k : ℕ) (ships : List MpShip) (index : ℕ) (s : MpShip)
    (hget : ships.get? index = some s)
    (hmed : 0 < sz.med) (hsmall : 0 < sz.small) :
    ((splitShipFragment sz ρ k ships index).1.length + 1 = ships.length ∨
      (splitShipFragment sz ρ k ships index).1.length = ships.length + 1) ∧
      (¬ s.size = sz.large → ¬ s.size = sz.med →
        (splitShipFragment sz ρ k ships index).1 = ships.eraseIdx index) ∧
      ((splitShipFragment sz ρ k ships index).1 = ships.eraseIdx index ∨
        ∃ a b : MpShip,
          (splitShipFragment sz ρ k ships index).1 =
            ships.take index ++ [a, b] ++ ships.drop (index + 1) ∧
          GoodPlacement (if s.size = sz.large then sz.med else sz.small)
            s.x s.y s.dx s.dy
            (ships.take index ++ ships.drop (index + 1)) a ∧
          GoodPlacement (if s.size = sz.large then sz.med else sz.small)
            s.x s.y s.dx s.dy
            ((ships.take index ++ ships.drop (index + 1)) ++ [a]) b) := by
  have hidx : index < ships.length := by
    rcases List.get?_eq_some.mp hget with ⟨h, -⟩
    exact h
  have herase := List.length_eraseIdx_add_one hidx
  have hsplice : ∀ a b : MpShip,
      (ships.take index ++ [a, b] ++ ships.drop (index + 1)).length =
        ships.length + 1 := by
    intro a b
    simp only [List.length_append, List.length_take, List.length_drop,
      List.length_cons, List.length_nil]
    omega
  unfold splitShipFragment
  rw [hget]
  dsimp only
  by_cases hL : s.size = sz.large
  · rw [if_pos hL]
    have hnx : (0:ℚ) < sz.med := hmed
    cases hra : (tryPlace ρ sz.med s.x s.y s.dx s.dy
        (ships.take index ++ ships.drop (index + 1)) 24 k).1 with
    | none =>
      simp only [hra]
      exact ⟨Or.inl herase, fun _ _ => trivial, Or.inl trivial⟩
    | some a =>
      have hga := tryPlace_some ρ hρ sz.med s.x s.y s.dx s.dy hnx
        (ships.take index ++ ships.drop (index + 1)) 24 k a hra
      cases hrb : (tryPlace ρ sz.med s.x s.y s.dx s.dy
          ((ships.take index ++ ships.drop (index + 1)) ++ [a]) 24
          (tryPlace ρ sz.med s.x s.y s.dx s.dy
            (ships.take index ++ ships.drop (index + 1)) 24 k).2).1 with
      | none =>
        simp only [hra, hrb]
        exact ⟨Or.inl herase, fun h _ => absurd hL h, Or.inl trivial⟩
      | some b =>
        have hgb := tryPlace_some ρ hρ sz.med s.x s.y s.dx s.dy hnx
          ((ships.take index ++ ships.drop (index + 1)) ++ [a]) 24 _ b hrb
        simp only [hra, hrb]
        refine ⟨Or.inr (hsplice a b), fun h _ => absurd hL h,
          Or.inr ⟨a, b, rfl, ?_, ?_⟩⟩
        · rw [if_pos hL]
          exact hga
        · rw [if_pos hL]
          exact hgb
  · rw [if_neg hL]
    by_cases hM : s.size = sz.med
    · rw [if_pos hM]
      have hnx : (0:ℚ) < sz.small := hsmall
      cases hra : (tryPlace ρ sz.small s.x s.y s.dx s.dy
          (ships.take index ++ ships.drop (index + 1)) 24 k).1 with
      | none =>
        simp only [hra]
        exact ⟨Or.inl herase, fun _ _ => trivial, Or.inl trivial⟩
      | some a =>
        have hga := tryPlace_some ρ hρ sz.small s.x s.y s.dx s.dy hnx
          (ships.take index ++ ships.drop (index + 1)) 24 k a hra
        cases hrb : (tryPlace ρ sz.small s.x s.y s.dx s.dy
            ((ships.take index ++ ships.drop (index + 1)) ++ [a]) 24
            (tryPlace ρ sz.small s.x s.y s.dx s.dy
              (ships.take index ++ ships.drop (index + 1)) 24 k).2).1 with
        | none =>
          simp only [hra, hrb]
          exact ⟨Or.inl herase, fun _ h => absurd hM h, Or.inl trivial⟩
        | some b =>
          have hgb := tryPlace_some ρ hρ sz.small s.x s.y s.dx s.dy hnx
            ((ships.take index ++ ships.drop (index + 1)) ++ [a]) 24 _ b hrb
          simp only [hra, hrb]
          refine ⟨Or.inr (hsplice a b), fun _ h => absurd hM h,
            Or.inr ⟨a, b, rfl, ?_, ?_⟩⟩
          · rw [if_neg hL]
            exact hga
          · rw [if_neg hL]
            exact hgb
    · rw [if_neg hM]
      dsimp only
      exact ⟨Or.inl herase, fun _ _ => rfl, Or.inl rfl⟩

def shipC9 : MpShip :=
  { x := 50, y := 50, dx := 0, dy := 0, size := 3, invincibleMs := 0 }

theorem splitShipFragment_spec_witness :
    ([shipC9].get? 0 = some shipC9) ∧ (0:ℚ) < szC.med ∧ (0:ℚ) < szC.small ∧
      (((splitShipFragment szC constRng 0 [shipC9] 0).1.length + 1 =
            [shipC9].length ∨
          (splitShipFragment szC constRng 0 [shipC9] 0).1.length =
            [shipC9].length + 1) ∧
        (¬ shipC9.size = szC.large → ¬ shipC9.size = szC.med →
          (splitShipFragment szC constRng 0 [shipC9] 0).1 =
            [shipC9].eraseIdx 0) ∧
        ((splitShipFragment szC constRng 0 [shipC9] 0).1 =
            [shipC9].eraseIdx 0 ∨
          ∃ a b : MpShip,
            (splitShipFragment szC constRng 0 [shipC9] 0).1 =
              [shipC9].take 0 ++ [a, b] ++ [shipC9].drop 1 ∧
            GoodPlacement
              (if shipC9.size = szC.large then szC.med else szC.small)
              shipC9.x shipC9.y shipC9.dx shipC9.dy
              ([shipC9].take 0 ++ [shipC9].drop 1) a ∧
            GoodPlacement
              (if shipC9.size = szC.large then szC.med else szC.small)
              shipC9.x shipC9.y shipC9.dx shipC9.dy
              (([shipC9].take 0 ++ [shipC9].drop 1) ++ [a]) b)) :=
  ⟨rfl, by norm_num [szC], by norm_num [szC],
    splitShipFragment_spec szC constRng constRng_good 0 [shipC9] 0 shipC9
      rfl (by norm_num [szC]) (by norm_num [szC])⟩

theorem gm_playing_ne_menu : ¬ (GameMode.playing = GameMode.menu) := by simp

theorem nextLevel_proj (ρ : Rng) (k : ℕ) (w h : ℚ) (st : GState) :
    (nextLevel ρ k w h st).1.mode = st.mode ∧
      (nextLevel ρ k w h st).1.ship.lives = st.ship.lives ∧
      (nextLevel ρ k w h st).1.levelTransitionMs = st.levelTransitionMs :=
  ⟨rfl, rfl, rfl⟩

theorem spCollide_mode_lives (dt w h : ℚ) (ρ : Rng) (k : ℕ) (st : GState)
    (sh : Ship) (hmode : st.mode = GameMode.playing) (hl : 1 ≤ sh.lives) :
    (spCollide dt w h ρ k st sh).1.mode = GameMode.menu ↔
      (sh.lives = 1 ∧ (spCollide dt w h ρ k st sh).1.ship.lives = 0) := by
  unfold spCollide
  dsimp only
  split
  · split
    · next hz =>
      simp only
      constructor
      · intro
        refine ⟨by omega, hz⟩
      · intro
        trivial
    · next hz =>
      simp only [hmode]
      constructor
      · intro hcon
        exact absurd hcon gm_playing_ne_menu
      · rintro ⟨-, hcon⟩
        exact absurd hcon hz
  · constructor
    · intro hcon
      rw [hmode] at hcon
      exact absurd hcon gm_playing_ne_menu
    · rintro ⟨h1, h0⟩
      simp only at h0
      omega

theorem spShipPhase_mode_lives (dt w h : ℚ) (ρ : Rng) (k : ℕ) (st : GState)
    (hmode : st.mode = GameMode.playing) (hl : 1 ≤ st.ship.lives) :
    ((spShipPhase dt w h ρ k st).1.mode = GameMode.menu ↔
      (st.ship.lives = 1 ∧ (spShipPhase dt w h ρ k st).1.ship.lives = 0)) := by
  obtain ⟨-, -, -, -, -, -, hlv, -, -, -, -⟩ := tickInvincible_proj dt st.ship
  unfold spShipPhase
  dsimp only
  split
  · obtain ⟨⟨hm, -, -⟩, hplv, -⟩ :=
      spRespawn_proj dt w h st (tickInvincible dt st.ship)
    rw [hm, hmode, hplv, hlv]
    constructor
    · intro hcon
      exact absurd hcon gm_playing_ne_menu
    · rintro ⟨h1, h0⟩
      omega
  · split
    · rw [spCollide_mode_lives dt w h ρ k st (tickInvincible dt st.ship)
        hmode (by rw [hlv]; exact hl), hlv]
    · rw [hmode]
      constructor
      · intro hcon
        exact absurd hcon gm_playing_ne_menu
      · rintro ⟨h1, h0⟩
        simp only at h0
        rw [hlv] at h0
        omega

theorem spPlayingTick_mode_lives (ρ : Rng) (pad : Pad) (ex dt w h : ℚ)
    (st : GState) (hmode : st.mode = GameMode.playing)
    (hl : 1 ≤ st.ship.lives) :
    ((spPlayingTick ρ pad ex dt w h st).mode = GameMode.menu ↔
      (st.ship.lives = 1 ∧ (spPlayingTick ρ pad ex dt w h st).ship.lives = 0)) := by
  obtain ⟨-, -, -, -, hplives, -, hpmode, -⟩ := spPassStage_proj ρ pad dt w h st
  obtain ⟨-, -, hmlives, -, -, -, -⟩ := spMoveShip_proj pad dt w h st.ship
  obtain ⟨-, -, -, -, -, -, hflives, -, -, -, -⟩ :=
    spFire_proj pad dt w h (spMoveShip pad dt w h st.ship)
  have hlives2 : (spLevelClear (spPassStage ρ pad dt w h st).1).ship.lives =
      st.ship.lives := by
    rw [spLevelClear_ship, hplives, hflives, hmlives]
  have hmode2 : (spLevelClear (spPassStage ρ pad dt w h st).1).mode =
      GameMode.playing := by
    rw [spLevelClear_mode, hpmode, hmode]
  unfold spPlayingTick
  rw [(spFinishStage_proj ex dt w h _).2.1, (spFinishStage_proj ex dt w h _).1]
  rw [spShipPhase_mode_lives dt w h ρ (spPassStage ρ pad dt w h st).2
    (spLevelClear (spPassStage ρ pad dt w h st).1) hmode2
    (by rw [hlives2]; exact hl), hlives2]

theorem update_sp_mode_lives (sz : ShipSizes) (ρ : Rng) (inp : Input)
    (ex dt w h : ℚ) (st : GState) (hmode : st.mode = GameMode.playing)
    (hl : 1 ≤ st.ship.lives) :
    ((update sz ρ inp ex dt w h st).mode = GameMode.menu ↔
      (st.ship.lives = 1 ∧ (update sz ρ inp ex dt w h st).ship.lives = 0)) := by
  rcases le_or_lt st.levelTransitionMs 0 with hlt | hlt
  · rw [update_playing sz ρ inp ex dt w h st hmode hlt]
    exact spPlayingTick_mode_lives ρ inp.p1 ex dt w h st hmode hl
  · unfold update
    rw [if_neg (by rw [hmode]; exact gm_playing_ne_versus),
      if_neg (by rw [hmode]; intro hcon; exact hcon rfl),
      if_pos hlt]
    dsimp only
    split
    · obtain ⟨hm, hlv, -⟩ := nextLevel_proj ρ 0 w h
        { st with levelTransitionMs := 0 }
      rw [hm, hlv]
      show st.mode = GameMode.menu ↔ (st.ship.lives = 1 ∧ st.ship.lives = 0)
      rw [hmode]
      constructor
      · intro hcon
        exact absurd hcon gm_playing_ne_menu
      · rintro ⟨h1, h0⟩
        omega
    · show st.mode = GameMode.menu ↔ (st.ship.lives = 1 ∧ st.ship.lives = 0)
      rw [hmode]
      constructor
      · intro hcon
        exact absurd hcon gm_playing_ne_menu
      · rintro ⟨h1, h0⟩
        omega

theorem vsLevelTrigger_proj (st : GState) :
    (vsLevelTrigger st).mode = st.mode ∧
      (vsLevelTrigger st).players = st.players := by
  unfold vsLevelTrigger
  split <;> exact ⟨rfl, rfl⟩

theorem vsLevelExpire_mode (sz : ShipSizes) (ρ : Rng) (k : ℕ) (dt w h : ℚ)
    (st : GState) : (vsLevelExpire sz ρ k dt w h st).1.mode = st.mode := by
  unfold vsLevelExpire
  split
  · split
    · exact (nextLevel_proj ρ k w h _).1
    · rfl
  · rfl

theorem vsLevelPhase_mode (sz : ShipSizes) (ρ : Rng) (k : ℕ) (dt w h : ℚ)
    (st : GState) : (vsLevelPhase sz ρ k dt w h st).1.mode = st.mode := by
  unfold vsLevelPhase
  rw [vsLevelExpire_mode, (vsLevelTrigger_proj st).1]

theorem vsShipsStage_proj (sz : ShipSizes) (ρ : Rng) (k : ℕ) (w h : ℚ)
    (st : GState) :
    (vsShipsStage sz ρ k w h st).mode = st.mode ∧
      (vsShipsStage sz ρ k w h st).levelTransitionMs =
        st.levelTransitionMs :=
  ⟨rfl, rfl⟩

theorem vsEndCheck_proj (st : GState) :
    (vsEndCheck st).levelTransitionMs = st.levelTransitionMs ∧
      (vsEndCheck st).players = st.players := by
  unfold vsEndCheck
  split <;> exact ⟨rfl, rfl⟩

theorem vsEndCheck_mode (st : GState) (h : ¬ st.mode = GameMode.menu) :
    (vsEndCheck st).mode = GameMode.menu ↔
      (st.levelTransitionMs ≤ 0 ∧
        aliveAt st.players 0 ≠ aliveAt st.players 1) := by
  unfold vsEndCheck
  split
  · next hc =>
    exact iff_of_true rfl hc
  · next hc =>
    constructor
    · intro hcon
      exact absurd hcon h
    · intro hcon
      exact absurd hcon hc

theorem update_versus_mode (sz : ShipSizes) (ρ : Rng) (inp : Input)
    (ex dt w h : ℚ) (st : GState) (hmode : st.mode = GameMode.versus) :
    ((update sz ρ inp ex dt w h st).mode = GameMode.menu ↔
      ((update sz ρ inp ex dt w h st).levelTransitionMs ≤ 0 ∧
        aliveAt (update sz ρ inp ex dt w h st).players 0 ≠
          aliveAt (update sz ρ inp ex dt w h st).players 1)) := by
  have hdisp : update sz ρ inp ex dt w h st =
      updateVersus sz ρ inp ex dt w h st := by
    unfold update
    rw [if_pos hmode]
  rw [hdisp]
  unfold updateVersus
  set pre : GState := vsShipsStage sz ρ
    (vsLevelPhase sz ρ
      (vsPassStage ρ w h (vsPlayersStage inp dt w h (vsMoveStage ex dt w h st))).2
      dt w h
      (vsPassStage ρ w h (vsPlayersStage inp dt w h (vsMoveStage ex dt w h st))).1).2
    w h
    (vsLevelPhase sz ρ
      (vsPassStage ρ w h (vsPlayersStage inp dt w h (vsMoveStage ex dt w h st))).2
      dt w h
      (vsPassStage ρ w h (vsPlayersStage inp dt w h (vsMoveStage ex dt w h st))).1).1
    with hpre
  have hpm : pre.mode = st.mode := by
    rw [hpre, (vsShipsStage_proj sz ρ _ w h _).1, vsLevelPhase_mode]
    rfl
  have hne : ¬ pre.mode = GameMode.menu := by
    rw [hpm, hmode]
    exact gm_versus_ne_menu
  rw [vsEndCheck_mode pre hne, (vsEndCheck_proj pre).1,
    (vsEndCheck_proj pre).2]

/-- C2: mode-to-menu boundary. A single-player tick (mode Playing, at
least one life) ends in the Menu iff the ship's lives go from exactly 1
to 0 during that tick (`src/main.ts` lines 979–1001). A Versus tick ends
in the Menu iff, at the end of the tick, no level transition is pending
and exactly one of the two sides has a nonzero ship count
(`src/main.ts` lines 451–458). -/
theorem mode_transition_spec (sz : ShipSizes) (ρ : Rng) (inp : Input)
    (ex dt w h : ℚ) (st1 st2 : GState)
    (h1 : st1.mode = GameMode.playing) (hl : 1 ≤ st1.ship.lives)
    (h2 : st2.mode = GameMode.versus) :
    ((update sz ρ inp ex dt w h st1).mode = GameMode.menu ↔
      (st1.ship.lives = 1 ∧
        (update sz ρ inp ex dt w h st1).ship.lives = 0)) ∧
    ((update sz ρ inp ex dt w h st2).mode = GameMode.menu ↔
      ((update sz ρ inp ex dt w h st2).levelTransitionMs ≤ 0 ∧
        aliveAt (update sz ρ inp ex dt w h st2).players 0 ≠
          aliveAt (update sz ρ inp ex dt w h st2).players 1)) :=
  ⟨update_sp_mode_lives sz ρ inp ex dt w h st1 h1 hl,
   update_versus_mode sz ρ inp ex dt w h st2 h2⟩

theorem mode_transition_spec_witness :
    gsC10.mode = GameMode.playing ∧ 1 ≤ gsC10.ship.lives ∧
      gsC7v.mode = GameMode.versus ∧
      (((update szC constRng inputIdle 1 2 100 100 gsC10).mode =
            GameMode.menu ↔
          (gsC10.ship.lives = 1 ∧
            (update szC constRng inputIdle 1 2 100 100 gsC10).ship.lives
              = 0)) ∧
        ((update szC constRng inputIdle 1 2 100 100 gsC7v).mode =
            GameMode.menu ↔
          ((update szC constRng inputIdle 1 2 100 100
                gsC7v).levelTransitionMs ≤ 0 ∧
            aliveAt
                (update szC constRng inputIdle 1 2 100 100 gsC7v).players
                0 ≠
              aliveAt
                (update szC constRng inputIdle 1 2 100 100 gsC7v).players
                1))) :=
  ⟨rfl, by norm_num [gsC10, shipC10], rfl,
    mode_transition_spec szC constRng inputIdle 1 2 100 100 gsC10 gsC7v
      rfl (by norm_num [gsC10, shipC10]) rfl⟩

theorem spMoveShip_respawning (pad : Pad) (dt w h : ℚ) (sh : Ship)
    (hr : ¬ sh.respawnMs ≤ 0) :
    (spMoveShip pad dt w h sh).x = sh.x ∧
      (spMoveShip pad dt w h sh).y = sh.y := by
  simp only [spMoveShip]
  rw [if_neg hr]
  exact ⟨rfl, rfl⟩

theorem isSafeCenter_spec (w h s : ℚ) (asts : List Asteroid)
    (hs : isSafeCenter w h s asts = true) :
    ∀ a ∈ asts, a.timeUntilDead = none →
      wrapDelta (w / 2 - a.x) w * wrapDelta (w / 2 - a.x) w +
          wrapDelta (h / 2 - a.y) h * wrapDelta (h / 2 - a.y) h >
        (a.size + s * 1.5) * (a.size + s * 1.5) := by
  intro a ha hdead
  simp only [isSafeCenter, List.all_eq_true] at hs
  have hb := hs a ha
  rw [hdead] at hb
  simp only [ne_eq, not_true_eq_false, if_false, decide_eq_true_eq] at hb
  exact hb

theorem spRespawn_expire_safe (dt w h : ℚ) (st : GState) (sh : Ship)
    (h0 : max 0 (sh.respawnMs - dt) = 0)
    (hs : isSafeCenter w h sh.size st.asteroids = true) :
    (spRespawn dt w h st sh).ship.x = w / 2 ∧
      (spRespawn dt w h st sh).ship.y = h / 2 ∧
      (spRespawn dt w h st sh).ship.invincibleMs = 2000 ∧
      (spRespawn dt w h st sh).ship.respawnMs = 0 := by
  simp only [spRespawn]
  rw [h0, if_pos rfl, if_pos hs]
  exact ⟨rfl, rfl, rfl, rfl⟩

theorem spRespawn_expire_unsafe (dt w h : ℚ) (st : GState) (sh : Ship)
    (h0 : max 0 (sh.respawnMs - dt) = 0)
    (hs : isSafeCenter w h sh.size st.asteroids = false) :
    (spRespawn dt w h st sh).ship.respawnMs = 50 ∧
      (spRespawn dt w h st sh).ship.x = sh.x ∧
      (spRespawn dt w h st sh).ship.y = sh.y := by
  simp only [spRespawn]
  rw [h0, if_pos rfl, if_neg (by rw [hs]; simp)]
  exact ⟨rfl, rfl, rfl⟩

theorem spShipPhase_respawning (dt w h : ℚ) (ρ : Rng) (k : ℕ)
    (st : GState) (hr : 0 < st.ship.respawnMs) :
    (spShipPhase dt w h ρ k st).1 =
      spRespawn dt w h st (tickInvincible dt st.ship) := by
  simp only [spShipPhase]
  obtain ⟨-, -, -, -, htrs, -, -, -, -, -, -⟩ :=
    tickInvincible_proj dt st.ship
  rw [if_pos (by rw [htrs]; exact hr)]

/-- C3: respawn safety. In a Playing tick whose respawn countdown expires
(`src/main.ts` lines 939–961), the ship is relocated to the world center,
with 2000 ms of invincibility, exactly when the safe-center test passes;
the test passing means every live (non-decaying) asteroid's wrapped
distance from the center strictly exceeds its size plus one and a half
ship sizes, so the relocated ship is never within that radius of a live
asteroid. When the test fails, the respawn timer is reset to 50 ms and
the ship's position is unchanged. -/
theorem respawn_safety (sz : ShipSizes) (ρ : Rng) (inp : Input)
    (ex dt w h : ℚ) (st : GState) (hmode : st.mode = GameMode.playing)
    (hlt : st.levelTransitionMs ≤ 0) (hr : 0 < st.ship.respawnMs)
    (hrd : st.ship.respawnMs ≤ dt) :
    (isSafeCenter w h st.ship.size
          (update sz ρ inp ex dt w h st).asteroids = true →
        (update sz ρ inp ex dt w h st).ship.x = w / 2 ∧
          (update sz ρ inp ex dt w h st).ship.y = h / 2 ∧
          (update sz ρ inp ex dt w h st).ship.invincibleMs = 2000 ∧
          ∀ a ∈ (update sz ρ inp ex dt w h st).asteroids,
            a.timeUntilDead = none →
              wrapDelta (w / 2 - a.x) w * wrapDelta (w / 2 - a.x) w +
                  wrapDelta (h / 2 - a.y) h * wrapDelta (h / 2 - a.y) h >
                (a.size + st.ship.size * 1.5) *
                  (a.size + st.ship.size * 1.5)) ∧
      (isSafeCenter w h st.ship.size
          (update sz ρ inp ex dt w h st).asteroids = false →
        (update sz ρ inp ex dt w h st).ship.respawnMs = 50 ∧
          (update sz ρ inp ex dt w h st).ship.x = st.ship.x ∧
          (update sz ρ inp ex dt w h st).ship.y = st.ship.y) := by
  rw [update_playing sz ρ inp ex dt w h st hmode hlt]
  unfold spPlayingTick
  obtain ⟨hpx, hpy, hprs, hpsz, -, hpiv, -, -⟩ :=
    spPassStage_proj ρ inp.p1 dt w h st
  obtain ⟨hfx, hfy, -, -, hfrs, hfsz, -, -, hfiv, -, -⟩ :=
    spFire_proj inp.p1 dt w h (spMoveShip inp.p1 dt w h st.ship)
  obtain ⟨hmrs, hmsz, -, -, -, hmiv, -⟩ :=
    spMoveShip_proj inp.p1 dt w h st.ship
  obtain ⟨hmx, hmy⟩ :=
    spMoveShip_respawning inp.p1 dt w h st.ship (not_le.mpr hr)
  have hship_x : (spPassStage ρ inp.p1 dt w h st).1.ship.x = st.ship.x := by
    rw [hpx, hfx, hmx]
  have hship_y : (spPassStage ρ inp.p1 dt w h st).1.ship.y = st.ship.y := by
    rw [hpy, hfy, hmy]
  have hship_rs : (spPassStage ρ inp.p1 dt w h st).1.ship.respawnMs =
      st.ship.respawnMs := by
    rw [hprs, hfrs, hmrs]
  have hship_sz : (spPassStage ρ inp.p1 dt w h st).1.ship.size =
      st.ship.size := by
    rw [hpsz, hfsz, hmsz]
  have h2ship : (spLevelClear (spPassStage ρ inp.p1 dt w h st).1).ship =
      (spPassStage ρ inp.p1 dt w h st).1.ship :=
    spLevelClear_ship _
  have hphase :
      (spShipPhase dt w h ρ (spPassStage ρ inp.p1 dt w h st).2
          (spLevelClear (spPassStage ρ inp.p1 dt w h st).1)).1 =
        spRespawn dt w h (spLevelClear (spPassStage ρ inp.p1 dt w h st).1)
          (tickInvincible dt
            (spLevelClear (spPassStage ρ inp.p1 dt w h st).1).ship) :=
    spShipPhase_respawning dt w h ρ _ _
      (by rw [h2ship, hship_rs]; exact hr)
  rw [hphase]
  obtain ⟨htx, hty, -, -, htrs, htsz, -, -, -, -, -⟩ :=
    tickInvincible_proj dt
      (spLevelClear (spPassStage ρ inp.p1 dt w h st).1).ship
  have hshx :
      (tickInvincible dt
          (spLevelClear (spPassStage ρ inp.p1 dt w h st).1).ship).x =
        st.ship.x := by
    rw [htx, h2ship, hship_x]
  have hshy :
      (tickInvincible dt
          (spLevelClear (spPassStage ρ inp.p1 dt w h st).1).ship).y =
        st.ship.y := by
    rw [hty, h2ship, hship_y]
  have hshsz :
      (tickInvincible dt
          (spLevelClear (spPassStage ρ inp.p1 dt w h st).1).ship).size =
        st.ship.size := by
    rw [htsz, h2ship, hship_sz]
  have h0 : max 0
      ((tickInvincible dt
          (spLevelClear (spPassStage ρ inp.p1 dt w h st).1).ship).respawnMs
        - dt) = 0 := by
    rw [htrs, h2ship, hship_rs]
    exact max_eq_left (by linarith)
  obtain ⟨hfin_ship, -, hfin_ast, -⟩ :=
    spFinishStage_proj ex dt w h
      (spRespawn dt w h (spLevelClear (spPassStage ρ inp.p1 dt w h st).1)
        (tickInvincible dt
          (spLevelClear (spPassStage ρ inp.p1 dt w h st).1).ship))
  obtain ⟨⟨-, hrsp_ast, -⟩, -, -⟩ :=
    spRespawn_proj dt w h (spLevelClear (spPassStage ρ inp.p1 dt w h st).1)
      (tickInvincible dt
        (spLevelClear (spPassStage ρ inp.p1 dt w h st).1).ship)
  rw [hfin_ship, hfin_ast, hrsp_ast]
  cases hb : isSafeCenter w h
      (tickInvincible dt
        (spLevelClear (spPassStage ρ inp.p1 dt w h st).1).ship).size
      (spLevelClear (spPassStage ρ inp.p1 dt w h st).1).asteroids with
  | true =>
    obtain ⟨hX, hY, hI, -⟩ :=
      spRespawn_expire_safe dt w h
        (spLevelClear (spPassStage ρ inp.p1 dt w h st).1)
        (tickInvincible dt
          (spLevelClear (spPassStage ρ inp.p1 dt w h st).1).ship) h0 hb
    constructor
    · intro _
      refine ⟨hX, hY, hI, ?_⟩
      have hsp := isSafeCenter_spec w h _ _ hb
      rw [hshsz] at hsp
      exact hsp
    · intro hcon
      rw [← hshsz] at hcon
      rw [hb] at hcon
      cases hcon
  | false =>
    obtain ⟨h50, hX, hY⟩ :=
      spRespawn_expire_unsafe dt w h
        (spLevelClear (spPassStage ρ inp.p1 dt w h st).1)
        (tickInvincible dt
          (spLevelClear (spPassStage ρ inp.p1 dt w h st).1).ship) h0 hb
    constructor
    · intro hcon
      rw [← hshsz] at hcon
      rw [hb] at hcon
      cases hcon
    · intro _
      exact ⟨h50, hX.trans hshx, hY.trans hshy⟩

theorem respawn_safety_witness :
    gsC3.mode = GameMode.playing ∧ gsC3.levelTransitionMs ≤ 0 ∧
      0 < gsC3.ship.respawnMs ∧ gsC3.ship.respawnMs ≤ 2 ∧
      ((isSafeCenter 100 100 gsC3.ship.size
            (update szC constRng inputIdle 1 2 100 100 gsC3).asteroids =
              true →
          (update szC constRng inputIdle 1 2 100 100 gsC3).ship.x =
              100 / 2 ∧
            (update szC constRng inputIdle 1 2 100 100 gsC3).ship.y =
              100 / 2 ∧
            (update szC constRng inputIdle 1 2 100 100
                gsC3).ship.invincibleMs = 2000 ∧
            ∀ a ∈ (update szC constRng inputIdle 1 2 100 100
                gsC3).asteroids,
              a.timeUntilDead = none →
                wrapDelta (100 / 2 - a.x) 100 *
                      wrapDelta (100 / 2 - a.x) 100 +
                    wrapDelta (100 / 2 - a.y) 100 *
                      wrapDelta (100 / 2 - a.y) 100 >
                  (a.size + gsC3.ship.size * 1.5) *
                    (a.size + gsC3.ship.size * 1.5)) ∧
        (isSafeCenter 100 100 gsC3.ship.size
            (update szC constRng inputIdle 1 2 100 100 gsC3).asteroids =
              false →
          (update szC constRng inputIdle 1 2 100 100
              gsC3).ship.respawnMs = 50 ∧
            (update szC constRng inputIdle 1 2 100 100 gsC3).ship.x =
              gsC3.ship.x ∧
            (update szC constRng inputIdle 1 2 100 100 gsC3).ship.y =
              gsC3.ship.y)) :=
  ⟨rfl, by norm_num [gsC3], by norm_num [gsC3, shipC3],
    by norm_num [gsC3, shipC3],
    respawn_safety szC constRng inputIdle 1 2 100 100 gsC3 rfl
      (by norm_num [gsC3]) (by norm_num [gsC3, shipC3])
      (by norm_num [gsC3, shipC3])⟩

theorem foldl_fixed_of {α : Type} {β : Type} (f : α → β → α) (l : List β)
    (a : α) (h : ∀ b ∈ l, f a b = a) : l.foldl f a = a := by
  induction l with
  | nil => rfl
  | cons x xs ih =>
    rw [List.foldl_cons, h x (List.mem_cons_self x xs)]
    exact ih fun b hb => h b (List.mem_cons_of_mem x hb)

theorem list_set_get? {α : Type} :
    ∀ (l : List α) (i : ℕ) (a : α), l.get? i = some a → l.set i a = l := by
  intro l
  induction l with
  | nil =>
    intro i a h
    cases h
  | cons x xs ih =>
    intro i a h
    cases i with
    | zero =>
      simp only [List.get?] at h
      rw [List.set]
      rw [Option.some.inj h]
    | succ n =>
      simp only [List.get?] at h
      rw [List.set]
      rw [ih n a h]

theorem player_bullets_eta (p : Player) (hb : p.bullets = []) :
    ({ p with bullets := ([] : List MpBullet) } : Player) = p := by
  cases p
  dsimp only at hb ⊢
  rw [hb]

theorem vsBulletsVsShipsPlayer_frozen (sz : ShipSizes) (ρ : Rng)
    (st : VsBs) (ai : ℕ) (hb : ∀ p ∈ st.players, p.bullets = []) :
    vsBulletsVsShipsPlayer sz ρ st ai = st := by
  unfold vsBulletsVsShipsPlayer
  cases hget : st.players.get? ai with
  | none => rfl
  | some atk =>
    dsimp only
    have hbl : atk.bullets = [] := hb atk (List.get?_mem hget)
    rw [hbl, List.foldl_nil]
    rw [hget]
    dsimp only
    rw [player_bullets_eta atk hbl, list_set_get? st.players ai atk hget]

theorem vsBulletsVsShips_frozen (sz : ShipSizes) (ρ : Rng) (k : ℕ)
    (ps : List Player) (shake : ℚ) (expl : List Spark)
    (hb : ∀ p ∈ ps, p.bullets = []) :
    vsBulletsVsShips sz ρ k ps shake expl =
      { players := ps, shake := shake, explosions := expl, k := k } := by
  unfold vsBulletsVsShips
  exact foldl_fixed_of _ _ _ fun ai _ =>
    vsBulletsVsShipsPlayer_frozen sz ρ _ ai hb

theorem vsAstShips_frozen (sz : ShipSizes) (ρ : Rng) (w h : ℚ)
    (asts : List Asteroid) (st : VsBs)
    (hinv : ∀ p ∈ st.players, ∀ s ∈ p.ships, s.invincibleMs > 0) :
    vsAstShips sz ρ w h asts st = st := by
  unfold vsAstShips
  refine foldl_fixed_of _ _ _ ?_
  intro pi hpi
  dsimp only
  cases hget : st.players.get? pi with
  | none => rfl
  | some p =>
    dsimp only
    rw [vsAstShipsLoop_all_inv sz ρ w h asts _ 0 p st.shake st.explosions
      st.k (hinv p (List.get?_mem hget))]
    dsimp only
    rw [list_set_get? st.players pi p hget]

theorem vsShipShip_frozen (sz : ShipSizes) (ρ : Rng) (w h : ℚ)
    (st : VsBs)
    (hinv : ∀ p ∈ st.players, ∀ s ∈ p.ships, s.invincibleMs > 0) :
    vsShipShip sz ρ w h st = st := by
  unfold vsShipShip
  refine foldl_fixed_of _ _ _ ?_
  intro pr hpr
  dsimp only
  cases hgA : st.players.get? pr.1 with
  | none => rfl
  | some A =>
    cases hgB : st.players.get? pr.2 with
    | none => rfl
    | some B =>
      dsimp only
      rw [vsShipShipLoop_inv_left sz ρ w h _ 0 0 A B st.shake st.explosions
        st.k (hinv A (List.get?_mem hgA))]
      dsimp only
      rw [list_set_get? st.players pr.1 A hgA,
        list_set_get? st.players pr.2 B hgB]

theorem vsShipsStage_frozen (sz : ShipSizes) (ρ : Rng) (k : ℕ) (w h : ℚ)
    (E : GState) (hb : ∀ p ∈ E.players, p.bullets = [])
    (hinv : ∀ p ∈ E.players, ∀ s ∈ p.ships, s.invincibleMs > 0) :
    vsShipsStage sz ρ k w h E = E := by
  have h1 : vsBulletsVsShips sz ρ k E.players E.screenShakeAmount
      E.explosions =
      { players := E.players, shake := E.screenShakeAmount,
        explosions := E.explosions, k := k } :=
    vsBulletsVsShips_frozen sz ρ k E.players E.screenShakeAmount
      E.explosions hb
  have h2 : vsAstShips sz ρ w h E.asteroids
      ({ players := E.players, shake := E.screenShakeAmount,
         explosions := E.explosions, k := k } : VsBs) =
      { players := E.players, shake := E.screenShakeAmount,
        explosions := E.explosions, k := k } :=
    vsAstShips_frozen sz ρ w h E.asteroids _ hinv
  have h3 : vsShipShip sz ρ w h
      ({ players := E.players, shake := E.screenShakeAmount,
         explosions := E.explosions, k := k } : VsBs) =
      { players := E.players, shake := E.screenShakeAmount,
        explosions := E.explosions, k := k } :=
    vsShipShip_frozen sz ρ w h _ hinv
  simp only [vsShipsStage]
  rw [h1, h2, h3]

theorem vsEndCheck_level (st : GState) :
    (vsEndCheck st).level = st.level := by
  unfold vsEndCheck
  split <;> rfl

theorem vsEndCheck_asteroids (st : GState) :
    (vsEndCheck st).asteroids = st.asteroids := by
  unfold vsEndCheck
  split <;> rfl

theorem vsPlayersStage_players_length (inp : Input) (dt w h : ℚ)
    (st : GState) :
    (vsPlayersStage inp dt w h st).players.length = st.players.length := by
  unfold vsPlayersStage
  dsimp only
  rw [List.length_map]

theorem vsPass_foldl_len (ρ : Rng) (w h : ℚ) :
    ∀ (ps : List Player) (a : VsPass) (l : List Player),
      ((ps.foldl
          (fun (acc : VsPass × List Player) p =>
            let r := vsProcessPlayerBullets w h ρ acc.1 p
            (r.1, acc.2 ++ [r.2]))
          (a, l)).2).length = l.length + ps.length := by
  intro ps
  induction ps with
  | nil =>
    intro a l
    simp
  | cons p ps ih =>
    intro a l
    rw [List.foldl_cons]
    dsimp only
    rw [ih]
    simp only [List.length_append, List.length_cons, List.length_nil]
    omega

theorem vsPassStage_players_length (ρ : Rng) (w h : ℚ) (st : GState) :
    (vsPassStage ρ w h st).1.players.length = st.players.length := by
  have h2 := vsPass_foldl_len ρ w h st.players
    { asteroids := st.asteroids
      toRemove := []
      children := []
      shake := st.screenShakeAmount
      explosions := st.explosions
      k := 0 } []
  simp only [List.length_nil, Nat.zero_add] at h2
  exact h2

theorem vsLevelExpire_expiry (sz : ShipSizes) (ρ : Rng) (k : ℕ)
    (dt w h : ℚ) (S : GState) (h0 : 0 < S.levelTransitionMs)
    (hd : S.levelTransitionMs ≤ dt) :
    (vsLevelExpire sz ρ k dt w h S).1.level = S.level + 1 ∧
      (vsLevelExpire sz ρ k dt w h S).1.levelTransitionMs = 0 ∧
      (vsLevelExpire sz ρ k dt w h S).1.asteroids =
        (seedLevel ρ k (S.level + 1) w h
          { S with
            levelTransitionMs := 0
            level := S.level + 1 }).1.asteroids ∧
      (vsLevelExpire sz ρ k dt w h S).1.players.length =
        S.players.length ∧
      ∀ q ∈ (vsLevelExpire sz ρ k dt w h S).1.players,
        q.ships =
            [{ x := if q.color = Color.blue then w * 0.25 else w * 0.75
               y := h * 0.5
               dx := 0
               dy := 0
               size := sz.large
               invincibleMs := 2000 }] ∧
          q.bullets = [] ∧ q.fireCooldownMs = 200 ∧
          q.dirX = 0 ∧ q.dirY = -1 ∧ q.isBoosting = false := by
  unfold vsLevelExpire
  rw [if_pos h0, if_pos (max_eq_left (by linarith))]
  dsimp only
  refine ⟨rfl, rfl, rfl, List.length_map _ _, ?_⟩
  intro q hq
  rw [List.mem_map] at hq
  obtain ⟨p, -, rfl⟩ := hq
  exact ⟨rfl, rfl, rfl, rfl, rfl, rfl⟩

theorem update_versus_expiry (sz : ShipSizes) (ρ : Rng) (inp : Input)
    (ex dt w h : ℚ) (st : GState) (hmode : st.mode = GameMode.versus)
    (h0 : 0 < st.levelTransitionMs) (hd : st.levelTransitionMs ≤ dt) :
    (update sz ρ inp ex dt w h st).level = st.level + 1 ∧
      (update sz ρ inp ex dt w h st).levelTransitionMs = 0 ∧
      (update sz ρ inp ex dt w h st).asteroids =
        (seedLevel ρ
          (vsPassStage ρ w h
            (vsPlayersStage inp dt w h (vsMoveStage ex dt w h st))).2
          (st.level + 1) w h
          { (vsPassStage ρ w h
              (vsPlayersStage inp dt w h (vsMoveStage ex dt w h st))).1 with
            levelTransitionMs := 0
            level := st.level + 1 }).1.asteroids ∧
      (update sz ρ inp ex dt w h st).players.length =
        st.players.length ∧
      ∀ q ∈ (update sz ρ inp ex dt w h st).players,
        q.ships =
            [{ x := if q.color = Color.blue then w * 0.25 else w * 0.75
               y := h * 0.5
               dx := 0
               dy := 0
               size := sz.large
               invincibleMs := 2000 }] ∧
          q.bullets = [] ∧ q.fireCooldownMs = 200 ∧
          q.dirX = 0 ∧ q.dirY = -1 ∧ q.isBoosting = false := by
  have hdisp : update sz ρ inp ex dt w h st =
      updateVersus sz ρ inp ex dt w h st := by
    unfold update
    rw [if_pos hmode]
  rw [hdisp]
  unfold updateVersus
  unfold vsLevelPhase
  have hT : vsLevelTrigger
      (vsPassStage ρ w h
        (vsPlayersStage inp dt w h (vsMoveStage ex dt w h st))).1 =
      (vsPassStage ρ w h
        (vsPlayersStage inp dt w h (vsMoveStage ex dt w h st))).1 := by
    unfold vsLevelTrigger
    rw [if_neg]
    intro hc
    exact absurd hc.2 (not_le.mpr h0)
  rw [hT]
  obtain ⟨hlvl, hlt, hast, hlen, hfields⟩ :=
    vsLevelExpire_expiry sz ρ
      (vsPassStage ρ w h
        (vsPlayersStage inp dt w h (vsMoveStage ex dt w h st))).2
      dt w h
      (vsPassStage ρ w h
        (vsPlayersStage inp dt w h (vsMoveStage ex dt w h st))).1
      h0 hd
  have hinvq : ∀ q ∈ (vsLevelExpire sz ρ
      (vsPassStage ρ w h
        (vsPlayersStage inp dt w h (vsMoveStage ex dt w h st))).2
      dt w h
      (vsPassStage ρ w h
        (vsPlayersStage inp dt w h (vsMoveStage ex dt w h st))).1).1.players,
      ∀ s ∈ q.ships, s.invincibleMs > 0 := by
    intro q hq s hs
    rw [(hfields q hq).1] at hs
    rw [List.mem_singleton] at hs
    rw [hs]
    norm_num
  have hfrozen := vsShipsStage_frozen sz ρ
    (vsLevelExpire sz ρ
      (vsPassStage ρ w h
        (vsPlayersStage inp dt w h (vsMoveStage ex dt w h st))).2
      dt w h
      (vsPassStage ρ w h
        (vsPlayersStage inp dt w h (vsMoveStage ex dt w h st))).1).2
    w h
    (vsLevelExpire sz ρ
      (vsPassStage ρ w h
        (vsPlayersStage inp dt w h (vsMoveStage ex dt w h st))).2
      dt w h
      (vsPassStage ρ w h
        (vsPlayersStage inp dt w h (vsMoveStage ex dt w h st))).1).1
    (fun q hq => (hfields q hq).2.1) hinvq
  rw [hfrozen]
  rw [vsEndCheck_level, vsEndCheck_asteroids, (vsEndCheck_proj _).1,
    (vsEndCheck_proj _).2]
  refine ⟨hlvl, hlt, hast, ?_, hfields⟩
  rw [hlen, vsPassStage_players_length, vsPlayersStage_players_length]
  rfl

/-- C8 counterexample: in Versus with a 4 ms countdown remaining, player
two has ZERO ships when the level transition expires in a `dt = 4` tick —
yet after the tick it has one ship again: the expiry code
(`src/main.ts` lines 283–300) resets EVERY player to a single large ship,
not only the surviving ones, so "a player with zero ships is not given a
new ship" fails. -/
theorem versus_reset_counterexample :
    gsC8.mode = GameMode.versus ∧ 0 < gsC8.levelTransitionMs ∧
      gsC8.levelTransitionMs ≤ 4 ∧
      (gsC8.players.map fun p => p.ships.length) = [1, 0] ∧
      ((update szC constRng inputIdle 1 4 100 100 gsC8).players.map
        fun p => p.ships.length) = [1, 1] := by
  obtain ⟨-, -, -, hlen, hfields⟩ :=
    update_versus_expiry szC constRng inputIdle 1 4 100 100 gsC8 rfl
      (by norm_num [gsC8]) (by norm_num [gsC8])
  refine ⟨rfl, by norm_num [gsC8], by norm_num [gsC8],
    by norm_num [gsC8, playerC8a, playerC8d], ?_⟩
  have h2 : (update szC constRng inputIdle 1 4 100 100 gsC8).players.length
      = 2 := by
    rw [hlen]
    norm_num [gsC8]
  obtain ⟨a, b, hab⟩ := List.length_eq_two.mp h2
  have ha := hfields a (by rw [hab]; exact List.mem_cons_self a [b])
  have hb := hfields b
    (by rw [hab]; exact List.mem_cons_of_mem a (List.mem_cons_self b []))
  rw [hab]
  simp only [List.map_cons, List.map_nil]
  rw [ha.1, hb.1]
  rfl

/-- C8 amended: when the Versus level transition expires in a tick, the
level is incremented, the asteroid field is reseeded for the new level,
and ALL players — surviving or not — are reset to a single full-size
ship at their spawn point (25% of the world width for blue, 75% for red,
at half the world height) with a 2000 ms grace window, an empty bullet
list, a 200 ms fire cooldown and the upward facing; a player with zero
ships DOES receive a new ship (the code comments "Reset both players to
full health", `src/main.ts` lines 283–300). -/
theorem versus_reset_spec (sz : ShipSizes) (ρ : Rng) (inp : Input)
    (ex dt w h : ℚ) (st : GState) (hmode : st.mode = GameMode.versus)
    (h0 : 0 < st.levelTransitionMs) (hd : st.levelTransitionMs ≤ dt) :
    (update sz ρ inp ex dt w h st).level = st.level + 1 ∧
      (update sz ρ inp ex dt w h st).levelTransitionMs = 0 ∧
      (update sz ρ inp ex dt w h st).asteroids =
        (seedLevel ρ
          (vsPassStage ρ w h
            (vsPlayersStage inp dt w h (vsMoveStage ex dt w h st))).2
          (st.level + 1) w h
          { (vsPassStage ρ w h
              (vsPlayersStage inp dt w h (vsMoveStage ex dt w h st))).1 with
            levelTransitionMs := 0
            level := st.level + 1 }).1.asteroids ∧
      (update sz ρ inp ex dt w h st).players.length =
        st.players.length ∧
      ∀ q ∈ (update sz ρ inp ex dt w h st).players,
        q.ships =
            [{ x := if q.color = Color.blue then w * 0.25 else w * 0.75
               y := h * 0.5
               dx := 0
               dy := 0
               size := sz.large
               invincibleMs := 2000 }] ∧
          q.bullets = [] ∧ q.fireCooldownMs = 200 ∧
          q.dirX = 0 ∧ q.dirY = -1 ∧ q.isBoosting = false :=
  update_versus_expiry sz ρ inp ex dt w h st hmode h0 hd

theorem versus_reset_spec_witness :
    gsC8.mode = GameMode.versus ∧ 0 < gsC8.levelTransitionMs ∧
      gsC8.levelTransitionMs ≤ 4 ∧
      ((update szC constRng inputIdle 1 4 100 100 gsC8).level =
          gsC8.level + 1 ∧
        (update szC constRng inputIdle 1 4 100 100
            gsC8).levelTransitionMs = 0 ∧
        (update szC constRng inputIdle 1 4 100 100 gsC8).asteroids =
          (seedLevel constRng
            (vsPassStage constRng 100 100
              (vsPlayersStage inputIdle 4 100 100
                (vsMoveStage 1 4 100 100 gsC8))).2
            (gsC8.level + 1) 100 100
            { (vsPassStage constRng 100 100
                (vsPlayersStage inputIdle 4 100 100
                  (vsMoveStage 1 4 100 100 gsC8))).1 with
              levelTransitionMs := 0
              level := gsC8.level + 1 }).1.asteroids ∧
        (update szC constRng inputIdle 1 4 100 100 gsC8).players.length =
          gsC8.players.length ∧
        ∀ q ∈ (update szC constRng inputIdle 1 4 100 100 gsC8).players,
          q.ships =
              [{ x := if q.color = Color.blue then 100 * 0.25
                   else 100 * 0.75
                 y := 100 * 0.5
                 dx := 0
                 dy := 0
                 size := szC.large
                 invincibleMs := 2000 }] ∧
            q.bullets = [] ∧ q.fireCooldownMs = 200 ∧
            q.dirX = 0 ∧ q.dirY = -1 ∧ q.isBoosting = false) :=
  ⟨rfl, by norm_num [gsC8], by norm_num [gsC8],
    versus_reset_spec szC constRng inputIdle 1 4 100 100 gsC8 rfl
      (by norm_num [gsC8]) (by norm_num [gsC8])⟩
